import Mathlib

/-!
Verification of the marketfinder ETL arbitrage pipeline.

This file gives a shallow embedding, in Lean 4, of the engine layer of the
`marketfinder_etl` Python package (semantic bucketing, hierarchical pair
filtering, LLM evaluation with caching and cost tracking, arbitrage
detection and ranking, market normalisation, and the pipeline
orchestrator), together with theorems about the behaviour of that code.

Modelling conventions:
* Python `float` / `Decimal` values are modelled as `ℚ`; the comparisons in
  the code are all far from float-rounding boundaries at the inputs used.
* `datetime` values are modelled as `ℚ` (UTC seconds); `timedelta.total_seconds`
  becomes subtraction.
* `LLMEvaluation`, `ArbitrageOpportunity` and `ArbitrageStrategy` are concrete
  pydantic-v2 / enum classes in `models/arbitrage.py` (`models/base.py` sets
  `extra="forbid"`), and the engines construct them with keyword-argument sets
  that the classes reject: `ArbitrageStrategy` is a `str` Enum called with
  keyword arguments (`TypeError`), the local `TransactionCostAnalysis`
  requires a `cost_percentage` that is never passed, and `LLMEvaluation` /
  `ArbitrageOpportunity` have required fields disjoint from what the engines
  pass. Every such construction raises, which is modelled as `none`; record
  types named after those classes stand for the keyword-argument bundles at
  the call sites (they never exist as objects in the program). String-only
  report fields that nothing reads (for example
  `RiskAssessment.primary_risks` and `risk_notes`) are not modelled.
* Code that can raise (`ZeroDivisionError`, per-pair exceptions swallowed by a
  surrounding handler) is modelled with `Option`/`Except`.
* `math.log10` (used only inside the liquidity-score filter stage) is passed
  as an explicit function argument `log10 : ℚ → ℚ`; every theorem below holds
  for an arbitrary interpretation of it.
-/

namespace Marketfinder

/-- Python `round(x, d)` (banker's rounding, ties to even), on rationals. -/
def pyRound (d : ℕ) (x : ℚ) : ℚ :=
  let m : ℚ := (10 : ℚ) ^ d
  let y := x * m
  let n : ℤ := ⌊y⌋
  let r := y - n
  if r < 1/2 then (n : ℚ) / m
  else if 1/2 < r then ((n : ℚ) + 1) / m
  else if n % 2 = 0 then (n : ℚ) / m else ((n : ℚ) + 1) / m

/-- `Decimal.quantize(Decimal('0.01'), rounding=ROUND_HALF_UP)`: round to two
decimal places, ties away from zero. -/
def quantHalfUp2 (x : ℚ) : ℚ :=
  let y := x * 100
  let n : ℤ := ⌊y⌋
  let r := y - n
  if r < 1/2 then (n : ℚ) / 100
  else if 1/2 < r then ((n : ℚ) + 1) / 100
  else if y < 0 then (n : ℚ) / 100 else ((n : ℚ) + 1) / 100

/-- `Decimal.quantize(Decimal('0.01'))` with the default ROUND_HALF_EVEN. -/
def quantHalfEven2 (x : ℚ) : ℚ := pyRound 2 x

/-- Python `int(x)`: truncation toward zero. -/
def pyTrunc (x : ℚ) : ℤ := if x < 0 then ⌈x⌉ else ⌊x⌋

/-- Lexicographic order on char lists by code point, the order Python uses to
compare `str` values with `<=`. -/
def charListLe : List Char → List Char → Bool
  | [], _ => true
  | _ :: _, [] => false
  | c :: cs, d :: ds =>
      if c.val < d.val then true
      else if d.val < c.val then false
      else charListLe cs ds

/-- Python string comparison `a <= b` (lexicographic by code point). -/
def pyStrLe (a b : String) : Bool := charListLe a.toList b.toList

/-- Char-list prefix test. -/
def charsPrefix : List Char → List Char → Bool
  | [], _ => true
  | _ :: _, [] => false
  | c :: cs, d :: ds => c = d && charsPrefix cs ds

/-- Char-list contiguous-sublist test. -/
def charsInfix (needle : List Char) : List Char → Bool
  | [] => needle.isEmpty
  | d :: ds => charsPrefix needle (d :: ds) || charsInfix needle ds

/-- Python `needle in hay` for strings: contiguous substring test. -/
def pySubstr (needle hay : String) : Bool := charsInfix needle.toList hay.toList

/-- Python `s.lower()` (ASCII, which covers every string in this code base). -/
def lowerStr (s : String) : String := ⟨s.data.map Char.toLower⟩

/-- One step of the whitespace splitter: running from the right, a
non-whitespace char extends the current word, a whitespace char closes it. -/
def splitWsStep (c : Char) (acc : List (List Char) × List Char) :
    List (List Char) × List Char :=
  if c.isWhitespace then
    if acc.2.isEmpty then (acc.1, []) else (acc.2 :: acc.1, [])
  else (acc.1, c :: acc.2)

/-- Python `s.split()` (no argument): split on whitespace runs, no empty
fragments. -/
def pySplitWs (s : String) : List String :=
  let r := s.data.foldr splitWsStep ([], [])
  (if r.2.isEmpty then r.1 else r.2 :: r.1).map fun cs => ⟨cs⟩

/-- A per-element loop that keeps `f`'s successful results in order — the
shape of every `for` loop with `continue`s in the engines. -/
def seqFilterMap {α β : Type} (f : α → Option β) : List α → List β
  | [] => []
  | a :: l =>
    match f a with
    | some b => b :: seqFilterMap f l
    | none => seqFilterMap f l

/-- A per-element loop keeping the elements passing a test. -/
def seqFilter {α : Type} (p : α → Bool) : List α → List α
  | [] => []
  | a :: l => if p a then a :: seqFilter p l else seqFilter p l

/-- The two venues (`MarketPlatform`). -/
inductive Platform | kalshi | polymarket
deriving DecidableEq, Repr

/-- One market outcome (`MarketOutcome`): name, price, optional volume. -/
structure MarketOutcome where
  name : String
  price : ℚ
  volume : Option ℚ
deriving DecidableEq, Repr

/-- A normalised market, with the fields the bucketing and filtering engines
read (`NormalizedMarket`). Dates are UTC seconds as `ℚ`. -/
structure NormalizedMarket where
  platform : Platform
  external_id : String
  title : String
  description : Option String := none
  category : String
  outcomes : List MarketOutcome
  volume : ℚ
  end_date : ℚ
  created_date : Option ℚ := none
deriving DecidableEq, Repr

namespace Filtering

/-- `FilterConfig` from `engines/filtering.py`. -/
structure FilterConfig where
  min_volume_threshold : ℚ := 100
  min_price_range : ℚ := 5/100
  max_price_range : ℚ := 95/100
  min_arbitrage_potential : ℚ := 2/100
  min_text_similarity : ℚ := 3/10
  title_weight : ℚ := 7/10
  description_weight : ℚ := 3/10
  min_liquidity_score : ℚ := 1/10
  volume_ratio_threshold : ℚ := 1/10
  max_time_difference_days : ℚ := 30
  both_closing_soon_hours : ℚ := 24
deriving Repr

/-- The engine's default configuration. -/
def defaultFilterConfig : FilterConfig := {}

/-- `MarketPair` from `engines/filtering.py`. `price_difference` is set
unconditionally by filter stage 1, so it is carried as a plain `ℚ`; the
lazily populated score fields stay `Option`. -/
structure MarketPair where
  kalshi_id : String
  polymarket_id : String
  kalshi_title : String
  polymarket_title : String
  kalshi_price : ℚ
  polymarket_price : ℚ
  kalshi_volume : ℚ
  polymarket_volume : ℚ
  kalshi_category : String
  polymarket_category : String
  kalshi_close_time : ℚ
  polymarket_close_time : ℚ
  bucket_name : String
  price_difference : ℚ
  text_similarity : Option ℚ := none
  liquidity_score : Option ℚ := none
  time_alignment_score : Option ℚ := none
  arbitrage_potential : Option ℚ := none
deriving DecidableEq, Repr

/-- The stop-word set removed before the Jaccard similarity
(`_calculate_text_similarity`). -/
def stopWords : List String :=
  ["the", "a", "an", "and", "or", "but", "in", "on", "at", "to", "for",
   "of", "with", "by", "will", "be", "is", "are"]

/-- `text.lower().split()` as a set of tokens. -/
def tokenSet (s : String) : Finset String :=
  (pySplitWs (lowerStr s)).toFinset

/-- `_calculate_text_similarity`: Jaccard similarity of the stop-word-free
token sets of the two titles (an empty token set on either side gives 0;
this also covers the `if not text1 or not text2` early return). -/
def calculateTextSimilarity (text1 text2 : String) : ℚ :=
  let words1 := tokenSet text1 \ stopWords.toFinset
  let words2 := tokenSet text2 \ stopWords.toFinset
  if words1.card = 0 ∨ words2.card = 0 then 0
  else ((words1 ∩ words2).card : ℚ) / ((words1 ∪ words2).card : ℚ)

/-- `_get_yes_price`: the first outcome named yes/true/1, else the first
outcome's price, else 0.5. -/
def getYesPrice (m : NormalizedMarket) : ℚ :=
  match m.outcomes.find? (fun o => lowerStr o.name ∈ ["yes", "true", "1"]) with
  | some o => o.price
  | none =>
    match m.outcomes with
    | o :: _ => o.price
    | [] => 1/2

/-- `_is_valid_price`. -/
def isValidPrice (p : ℚ) : Bool := 1/100 ≤ p ∧ p ≤ 99/100

/-- Filter stage 1, `_basic_compatibility_filter`: the inner-loop checks for
one (kalshi, polymarket) candidate; `none` when any check rejects. -/
def basicCompatibilityPair (cfg : FilterConfig) (bucket : String)
    (k p : NormalizedMarket) : Option MarketPair :=
  let kPrice := getYesPrice k
  let pPrice := getYesPrice p
  if ¬ isValidPrice pPrice then none
  else if p.volume < cfg.min_volume_threshold then none
  else if ¬ (cfg.min_price_range ≤ kPrice ∧ kPrice ≤ cfg.max_price_range) then none
  else if ¬ (cfg.min_price_range ≤ pPrice ∧ pPrice ≤ cfg.max_price_range) then none
  else if |kPrice - pPrice| < cfg.min_arbitrage_potential then none
  else some
    { kalshi_id := k.external_id
      polymarket_id := p.external_id
      kalshi_title := k.title
      polymarket_title := p.title
      kalshi_price := kPrice
      polymarket_price := pPrice
      kalshi_volume := k.volume
      polymarket_volume := p.volume
      kalshi_category := k.category
      polymarket_category := p.category
      kalshi_close_time := k.end_date
      polymarket_close_time := p.end_date
      bucket_name := bucket
      price_difference := |kPrice - pPrice| }

/-- Filter stage 1 over the full cross product; a kalshi market with an
invalid price or low volume skips its whole row, as in the source. -/
def basicCompatibilityFilter (cfg : FilterConfig) (bucket : String)
    (kalshiMarkets polymarketMarkets : List NormalizedMarket) : List MarketPair :=
  kalshiMarkets.flatMap fun k =>
    if ¬ isValidPrice (getYesPrice k) then []
    else if k.volume < cfg.min_volume_threshold then []
    else seqFilterMap (basicCompatibilityPair cfg bucket k) polymarketMarkets

/-- Filter stage 2, `_text_similarity_filter`, for one pair: the weighted
similarity (description similarity is the hard-coded 0.0 placeholder) is
stored on the pair; it survives when that similarity reaches
`min_text_similarity` or the price difference is at least the hard-coded 0.1. -/
def textSimilarityStep (cfg : FilterConfig) (pair : MarketPair) : Option MarketPair :=
  let titleSimilarity := calculateTextSimilarity pair.kalshi_title pair.polymarket_title
  let overallSimilarity := titleSimilarity * cfg.title_weight + 0 * cfg.description_weight
  let pair' := { pair with text_similarity := some overallSimilarity }
  if overallSimilarity ≥ cfg.min_text_similarity ∨ pair.price_difference ≥ 1/10 then
    some pair'
  else none

/-- Filter stage 2 over a list of pairs. -/
def textSimilarityFilter (cfg : FilterConfig) (pairs : List MarketPair) : List MarketPair :=
  seqFilterMap (textSimilarityStep cfg) pairs

/-- `_calculate_liquidity_score`; `log10` stands for `math.log10`. -/
def calculateLiquidityScore (log10 : ℚ → ℚ) (volume price : ℚ) : ℚ :=
  let priceAdjustment := 1 - |price - 1/2| * 2
  let adjustedVolume := volume * max (1/10) priceAdjustment
  if adjustedVolume ≤ 0 then 0
  else min 1 (log10 (adjustedVolume + 1) / 4)

/-- Filter stage 3, `_liquidity_filter`, for one pair. -/
def liquidityStep (log10 : ℚ → ℚ) (cfg : FilterConfig) (pair : MarketPair) :
    Option MarketPair :=
  let kalshiLiquidity := calculateLiquidityScore log10 pair.kalshi_volume pair.kalshi_price
  let polymarketLiquidity :=
    calculateLiquidityScore log10 pair.polymarket_volume pair.polymarket_price
  let score := (kalshiLiquidity + polymarketLiquidity) / 2
  let pair' := { pair with liquidity_score := some score }
  if score < cfg.min_liquidity_score then none
  else
    let minVolume := min pair.kalshi_volume pair.polymarket_volume
    let maxVolume := max pair.kalshi_volume pair.polymarket_volume
    let volumeRatio := if 0 < maxVolume then minVolume / maxVolume else 0
    if volumeRatio < cfg.volume_ratio_threshold then none else some pair'

/-- Filter stage 3 over a list of pairs. -/
def liquidityFilter (log10 : ℚ → ℚ) (cfg : FilterConfig) (pairs : List MarketPair) :
    List MarketPair :=
  seqFilterMap (liquidityStep log10 cfg) pairs

/-- Filter stage 4, `_time_window_filter`, for one pair; `now` is
`datetime.utcnow()`. -/
def timeWindowStep (cfg : FilterConfig) (now : ℚ) (pair : MarketPair) :
    Option MarketPair :=
  let timeDiff := |pair.kalshi_close_time - pair.polymarket_close_time|
  let timeDiffDays := timeDiff / (24 * 3600)
  if timeDiffDays > cfg.max_time_difference_days then none
  else
    let maxDiffSeconds := cfg.max_time_difference_days * 24 * 3600
    let alignment := 1 - timeDiff / maxDiffSeconds
    let kalshiSoon := pair.kalshi_close_time - now < cfg.both_closing_soon_hours * 3600
    let polymarketSoon := pair.polymarket_close_time - now < cfg.both_closing_soon_hours * 3600
    let score := if kalshiSoon ∧ polymarketSoon then min 1 (alignment + 2/10) else alignment
    some { pair with time_alignment_score := some score }

/-- Filter stage 4 over a list of pairs. -/
def timeWindowFilter (cfg : FilterConfig) (now : ℚ) (pairs : List MarketPair) :
    List MarketPair :=
  seqFilterMap (timeWindowStep cfg now) pairs

/-- `_calculate_arbitrage_potential`. -/
def calculateArbitragePotential (pair : MarketPair) : ℚ :=
  max 0 (|pair.kalshi_price - pair.polymarket_price| - 1/100)

/-- Filter stage 5, `_arbitrage_potential_filter`, for one pair. -/
def arbitragePotentialStep (cfg : FilterConfig) (pair : MarketPair) :
    Option MarketPair :=
  let potential := calculateArbitragePotential pair
  let pair' := { pair with arbitrage_potential := some potential }
  if potential ≥ cfg.min_arbitrage_potential then some pair' else none

/-- Filter stage 5 over a list of pairs. -/
def arbitragePotentialFilter (cfg : FilterConfig) (pairs : List MarketPair) :
    List MarketPair :=
  seqFilterMap (arbitragePotentialStep cfg) pairs

/-- `filter_bucket_pairs`: split a bucket's markets by platform, return `[]`
when one side is empty, otherwise run the five stages in order. -/
def filterBucketPairs (log10 : ℚ → ℚ) (cfg : FilterConfig) (now : ℚ)
    (bucket : String) (markets : List NormalizedMarket) : List MarketPair :=
  let kalshiMarkets := seqFilter (fun m => m.platform = Platform.kalshi) markets
  let polymarketMarkets := seqFilter (fun m => m.platform = Platform.polymarket) markets
  if kalshiMarkets = [] ∨ polymarketMarkets = [] then []
  else
    arbitragePotentialFilter cfg
      (timeWindowFilter cfg now
        (liquidityFilter log10 cfg
          (textSimilarityFilter cfg
            (basicCompatibilityFilter cfg bucket kalshiMarkets polymarketMarkets))))

end Filtering

/-- Insertion step of a stable descending sort on a rational key: the new
element goes after every element whose key is at least as large. -/
def pyInsertDesc {α : Type} (key : α → ℚ) (x : α) : List α → List α
  | [] => [x]
  | h :: t => if key h ≥ key x then h :: pyInsertDesc key x t else x :: h :: t

/-- Python `list.sort(key=..., reverse=True)`: stable descending sort
(Timsort is stable, so elements with equal keys keep their input order;
this insertion sort has exactly that behaviour). -/
def pySortDesc {α : Type} (key : α → ℚ) (l : List α) : List α :=
  l.foldl (fun acc x => pyInsertDesc key x acc) []

namespace Bucketing

/-- `BucketDefinition` from `engines/bucketing.py`; `time_window` holds the
`datetime.fromisoformat` parse of the configured date (UTC seconds), `none`
both when absent and when unparsable (the `except ValueError: pass` branch).
Source keyword lists are already lowercase. An absent `required_keywords` /
`excluded_keywords` behaves exactly like an empty list, so both are plain
lists here. -/
structure BucketDefinition where
  name : String
  keywords : List String
  categories : List String
  priority : ℕ
  time_window : Option ℚ := none
  price_range : Option (ℚ × ℚ) := none
  required_keywords : List String := []
  excluded_keywords : List String := []
deriving Repr

/-- 2024-01-01T00:00:00Z in UTC seconds. -/
def date20240101 : ℚ := 1704067200

/-- 2024-09-01T00:00:00Z in UTC seconds. -/
def date20240901 : ℚ := 1725148800

/-- 2024-10-01T00:00:00Z in UTC seconds. -/
def date20241001 : ℚ := 1727740800

/-- `_create_bucket_definitions`, in the source's (insertion-order preserving)
dict order. -/
def bucketDefinitions : List BucketDefinition :=
  [ { name := "politics_trump_2024"
      keywords := ["trump", "donald", "maga", "republican nominee", "gop nominee", "trump 2024"]
      categories := ["Politics", "Elections"], priority := 1
      time_window := some date20240101, required_keywords := ["trump"] },
    { name := "politics_biden_2024"
      keywords := ["biden", "joe biden", "democratic nominee", "democrat nominee", "biden 2024"]
      categories := ["Politics", "Elections"], priority := 1
      time_window := some date20240101, required_keywords := ["biden"] },
    { name := "politics_election_2024"
      keywords := ["election", "presidential", "president", "2024 election", "electoral", "vote"]
      categories := ["Politics", "Elections"], priority := 2
      time_window := some date20240101 },
    { name := "politics_congress"
      keywords := ["congress", "senate", "house", "representative", "senator", "midterm"]
      categories := ["Politics"], priority := 2 },
    { name := "crypto_bitcoin_price"
      keywords := ["bitcoin", "btc", "bitcoin price", "$50000", "$100000"]
      categories := ["Crypto", "Cryptocurrency"], priority := 1
      price_range := some (20000, 200000) },
    { name := "crypto_ethereum"
      keywords := ["ethereum", "eth", "ether", "ethereum price"]
      categories := ["Crypto", "Cryptocurrency"], priority := 1 },
    { name := "crypto_general"
      keywords := ["crypto", "cryptocurrency", "coin", "token", "defi", "nft"]
      categories := ["Crypto", "Cryptocurrency"], priority := 3 },
    { name := "sports_nfl_2024"
      keywords := ["nfl", "super bowl", "football", "playoffs", "chiefs", "bills"]
      categories := ["Sports", "NFL"], priority := 1
      time_window := some date20240901 },
    { name := "sports_nba_2024"
      keywords := ["nba", "basketball", "finals", "championship", "lakers", "warriors"]
      categories := ["Sports", "NBA"], priority := 1
      time_window := some date20241001 },
    { name := "sports_soccer"
      keywords := ["world cup", "fifa", "soccer", "football", "uefa", "premier league"]
      categories := ["Sports"], priority := 2 },
    { name := "economics_fed_rates"
      keywords := ["fed", "federal reserve", "interest rate", "rate cut", "rate hike", "jerome powell"]
      categories := ["Economics"], priority := 1 },
    { name := "economics_inflation"
      keywords := ["inflation", "cpi", "consumer price", "deflation", "prices"]
      categories := ["Economics"], priority := 2 },
    { name := "economics_recession"
      keywords := ["recession", "gdp", "economic growth", "unemployment", "job"]
      categories := ["Economics"], priority := 2 },
    { name := "business_tech_stocks"
      keywords := ["apple", "microsoft", "google", "amazon", "meta", "tesla", "nvidia"]
      categories := ["Business"], priority := 1 },
    { name := "business_ipo"
      keywords := ["ipo", "public offering", "listing", "debut"]
      categories := ["Business"], priority := 2 },
    { name := "entertainment_awards"
      keywords := ["oscar", "academy award", "emmy", "golden globe", "grammy"]
      categories := ["Entertainment"], priority := 2 },
    { name := "entertainment_celebrity"
      keywords := ["celebrity", "movie", "actor", "actress", "director", "film"]
      categories := ["Entertainment"], priority := 3 },
    { name := "weather_hurricane"
      keywords := ["hurricane", "storm", "landfall", "category", "wind speed"]
      categories := ["Weather"], priority := 1 },
    { name := "weather_temperature"
      keywords := ["temperature", "heat", "cold", "record", "degrees"]
      categories := ["Weather"], priority := 2 },
    { name := "science_space"
      keywords := ["spacex", "nasa", "rocket", "mars", "moon", "satellite"]
      categories := ["Science", "Technology"], priority := 2 },
    { name := "tech_ai"
      keywords := ["ai", "artificial intelligence", "gpt", "chatgpt", "machine learning"]
      categories := ["Technology"], priority := 2 } ]

/-- The `combined_text` a market is scored on: lowercased title, a space,
lowercased description (empty when absent). -/
def combinedText (m : NormalizedMarket) : String :=
  lowerStr m.title ++ " " ++ lowerStr (m.description.getD "")

/-- `calculate_bucket_score`: keyword coverage (up to 50), hard zero on a
missing required keyword or a present excluded keyword, category match
(30 exact / 15 substring), time-window bonus (20 via `end_date`, else 10 via
`created_date`), capped at 100. The `price_range` block is a no-op in the
source (`hasattr(market, 'price_context')` is always false). -/
def calculateBucketScore (m : NormalizedMarket) (b : BucketDefinition) : ℚ :=
  let text := combinedText m
  let keywordMatches := b.keywords.countP (fun kw => pySubstr kw text)
  let keywordScore : ℚ :=
    if b.keywords.length ≠ 0 then
      min 50 ((keywordMatches : ℚ) / (b.keywords.length : ℚ) * 80)
    else 0
  if ¬ b.required_keywords.all (fun kw => pySubstr kw text) then 0
  else if b.excluded_keywords.any (fun kw => pySubstr kw text) then 0
  else
    let categoryScore : ℚ :=
      if m.category ∈ b.categories then 30
      else if b.categories.any (fun c => pySubstr (lowerStr c) (lowerStr m.category)) then 15
      else 0
    let timeScore : ℚ :=
      match b.time_window with
      | none => 0
      | some d =>
        if m.end_date ≥ d then 20
        else
          match m.created_date with
          | some cd => if cd ≥ d then 10 else 0
          | none => 0
    min 100 (keywordScore + categoryScore + timeScore)

/-- One step of `bucket_market`'s scan: the candidate bucket replaces the
incumbent when its priority-adjusted score exceeds the incumbent's stored
score and its raw score is at least 40; the stored score is the raw score. -/
def bucketStep (m : NormalizedMarket) (st : String × ℚ) (b : BucketDefinition) :
    String × ℚ :=
  let score := calculateBucketScore m b
  let adjustedScore := score + ((5 : ℚ) - (b.priority : ℚ)) * 5
  if adjustedScore > st.2 ∧ score ≥ 40 then (b.name, score) else st

/-- `bucket_market`: scan all bucket definitions in order, starting from the
sentinel (`miscellaneous`, 0); the returned confidence is the winner's raw
score over 100. -/
def bucketMarket (m : NormalizedMarket) : String × ℚ :=
  let best := bucketDefinitions.foldl (bucketStep m) ("miscellaneous", 0)
  (best.1, best.2 / 100)

/-- `BucketPair` from `models/pipeline.py` (the fields the bucketing engine
fills). -/
structure BucketPair where
  bucket_name : String
  kalshi_count : ℕ
  polymarket_count : ℕ
  comparison_count : ℕ
deriving DecidableEq, Repr

/-- `_create_bucket_pairs` on the (bucket, platform) rows of the market
dataframe: drop `miscellaneous`, count per bucket and platform, keep buckets
populated on both platforms, sort by `comparison_count` descending. -/
def createBucketPairs (rows : List (String × Platform)) : List BucketPair :=
  let kept := seqFilter (fun r => r.1 ≠ "miscellaneous") rows
  let names := (kept.map Prod.fst).dedup
  let pairs := seqFilterMap (fun b =>
    let kalshiCount := kept.countP (fun r => r.1 = b ∧ r.2 = Platform.kalshi)
    let polymarketCount := kept.countP (fun r => r.1 = b ∧ r.2 = Platform.polymarket)
    if 0 < kalshiCount ∧ 0 < polymarketCount then
      some ⟨b, kalshiCount, polymarketCount, kalshiCount * polymarketCount⟩
    else none) names
  pySortDesc (fun bp => (bp.comparison_count : ℚ)) pairs

/-- `bucket_markets`: assign every market a bucket, then build the
cross-platform bucket pairs (statistics bookkeeping omitted). -/
def bucketMarkets (markets : List NormalizedMarket) : List BucketPair :=
  createBucketPairs (markets.map fun m => ((bucketMarket m).1, m.platform))

end Bucketing

namespace Normalizer

/-- `_calculate_liquidity` from `transformers/market_normalizer.py`. `none`
models the `TypeError` raised when some outcome has no volume (`sum` over a
`None`); otherwise: average outcome volume times a spread factor — floored at
0.1, and 0.5 outright when there are fewer than two outcomes — quantised to
two decimals and capped by the market's total volume. -/
def calculateLiquidity (outcomes : List MarketOutcome) (volume : ℚ) : Option ℚ :=
  if outcomes = [] then some 0
  else if outcomes.any (fun o => o.volume = none) then none
  else
    let totalVolume := (outcomes.map (fun o => o.volume.getD 0)).sum
    let avgVolume := totalVolume / (outcomes.length : ℚ)
    let spreadFactor : ℚ :=
      match outcomes.map (·.price) with
      | p :: rest =>
        if 2 ≤ outcomes.length then
          let priceSpread := rest.foldl max p - rest.foldl min p
          max (1/10) (1 - priceSpread)
        else 1/2
      | [] => 1/2
    some (min (quantHalfEven2 (avgVolume * spreadFactor)) volume)

end Normalizer

namespace LLM

open Filtering

/-- `LLMConfig` from `engines/llm_evaluation.py` (rate-limit fields, which
only pace the calls, are omitted). -/
structure LLMConfig where
  provider : String := "openai"
  model_name : String := "gpt-4"
  min_confidence_threshold : ℚ := 75/100
  high_confidence_threshold : ℚ := 9/10
  batch_size : ℕ := 10
  enable_caching : Bool := true
  cache_duration_hours : ℚ := 24
  max_cost_per_batch : ℚ := 10
  cost_tracking : Bool := true
deriving Repr

/-- The engine's default configuration. -/
def defaultLLMConfig : LLMConfig := {}

/-- `LLMResponse`: the structured reply parsed from the model output. -/
structure LLMResponse where
  confidence_score : ℚ
  reasoning : String
  semantic_similarity : ℚ
  arbitrage_viability : ℚ
  risk_assessment : String
  recommended_action : String
deriving DecidableEq, Repr

/-- The numeric/text fields successfully pulled out of the reply's JSON
object; `Option` mirrors `data.get(...)` with its defaults applied in
`parseLLMResponse`. -/
structure ParsedJson where
  confidence_score : Option ℚ := none
  reasoning : Option String := none
  semantic_similarity : Option ℚ := none
  arbitrage_viability : Option ℚ := none
  risk_assessment : Option String := none
  recommended_action : Option String := none
deriving Repr

/-- `_parse_llm_response`: on a successful JSON extraction the fields are
read with defaults; on any failure (no braces, bad JSON, bad field) the
hard-coded fallback response is returned — confidence 0.5, action
INVESTIGATE, the raw content truncated to 500 characters as reasoning. -/
def parseLLMResponse (json : Option ParsedJson) (content : String) : LLMResponse :=
  match json with
  | some d =>
    { confidence_score := d.confidence_score.getD 0
      reasoning := d.reasoning.getD "No reasoning provided"
      semantic_similarity := d.semantic_similarity.getD 0
      arbitrage_viability := d.arbitrage_viability.getD 0
      risk_assessment := d.risk_assessment.getD "No risk assessment"
      recommended_action := d.recommended_action.getD "REJECT" }
  | none =>
    { confidence_score := 1/2
      reasoning := content.take 500
      semantic_similarity := 1/2
      arbitrage_viability := 1/2
      risk_assessment := "Unable to parse structured response"
      recommended_action := "INVESTIGATE" }

/-- `EvaluationCache`: one cached evaluation. -/
structure EvaluationCache where
  pair_hash : String
  response : LLMResponse
  timestamp : ℚ
  provider_used : String
  model_version : String
deriving DecidableEq, Repr

/-- The engine's `evaluation_cache` dict, as an association list. -/
def Cache := List (String × EvaluationCache)

/-- Dict lookup. -/
def cacheLookup (cache : Cache) (h : String) : Option EvaluationCache :=
  match (cache : List (String × EvaluationCache)).find? (fun e => e.1 = h) with
  | some e => some e.2
  | none => none

/-- Dict `del`. -/
def cacheRemove (cache : Cache) (h : String) : Cache :=
  seqFilter (fun e => e.1 ≠ h) (cache : List (String × EvaluationCache))

/-- Dict assignment (replace or add). -/
def cacheInsert (cache : Cache) (h : String) (e : EvaluationCache) : Cache :=
  (h, e) :: cacheRemove cache h

/-- `MLPrediction` as read by the LLM and detection engines. -/
structure MLPrediction where
  llm_worthiness_score : ℚ
  confidence_prediction : ℚ := 0
deriving DecidableEq, Repr

/-- The engine-side field set of an LLM evaluation: the keyword arguments
the LLM engine passes to the `LLMEvaluation` constructor and the attributes
the detection engine would read. The pydantic model in
`models/arbitrage.py` rejects exactly this field set (required fields
missing, extras forbidden), so no such object is ever constructed in the
program; the record stands for the attempted argument bundle, and as the
hypothetical duck-typed input of the detection loop. -/
structure LLMEvaluation where
  market1_id : String
  market2_id : String
  pair_id : String
  confidence_score : ℚ
  semantic_similarity : ℚ
  arbitrage_viability : ℚ
  reasoning : String
  risk_assessment : String
  recommended_action : String
  ml_score : ℚ
  provider_used : String
  model_version : String
  evaluation_timestamp : ℚ
deriving DecidableEq, Repr

/-- `_generate_pair_hash` builds an md5 of this string; the hash is modelled
by its preimage (an injective stand-in — only key equality matters). -/
def generatePairHash (pair : MarketPair) : String :=
  pair.kalshi_id ++ "_" ++ pair.polymarket_id ++ "_" ++
    pair.kalshi_title ++ "_" ++ pair.polymarket_title

/-- `_get_cached_evaluation`: a hit must exist and be younger than the TTL;
an expired entry is deleted. Returns the hit and the updated cache. -/
def getCachedEvaluation (cfg : LLMConfig) (now : ℚ) (cache : Cache)
    (h : String) : Option EvaluationCache × Cache :=
  if ¬ cfg.enable_caching then (none, cache)
  else
    match cacheLookup cache h with
    | none => (none, cache)
    | some cached =>
      if now - cached.timestamp > cfg.cache_duration_hours * 3600 then
        (none, cacheRemove cache h)
      else (some cached, cache)

/-- `_cache_evaluation`. -/
def cacheEvaluation (cfg : LLMConfig) (now : ℚ) (cache : Cache) (h : String)
    (response : LLMResponse) : Cache :=
  cacheInsert cache h
    { pair_hash := h, response := response, timestamp := now
      provider_used := cfg.provider, model_version := cfg.model_name }

/-- `_cache_to_evaluation`: constructs `models.arbitrage.LLMEvaluation`,
whose required fields (`market1_title`, `market2_title`, `similarity_score`,
`confidence`, `llm_provider`, `model_name`, ...) are disjoint from the
keyword arguments passed here, and whose configuration forbids extras — so
the construction raises `ValidationError` on every call; `none` models the
raise. (The attempted arguments would carry the cached response with a
`"[CACHED] "` prefix on the reasoning and the cached timestamp, but no such
object is ever produced.) -/
def cacheToEvaluation (cached : EvaluationCache) (pair : MarketPair)
    (ml : MLPrediction) : Option LLMEvaluation := none

/-- The keyword arguments `_create_fallback_evaluation` passes to the
`LLMEvaluation` constructor when the external call raises — confidence 0,
heuristic fields from the pair — gathered as a record. The pydantic model
rejects exactly these arguments (its required fields `market1_title`,
`similarity_score`, `confidence`, `llm_provider`, `model_name` are missing
and extras are forbidden), so the source function raises `ValidationError`
on every call and no fallback evaluation object is ever produced;
`evaluateMarketPair` below therefore never returns these values. -/
def createFallbackEvaluation (pair : MarketPair) (ml : MLPrediction)
    (error : String) (now : ℚ) : LLMEvaluation :=
  { market1_id := pair.kalshi_id
    market2_id := pair.polymarket_id
    pair_id := pair.kalshi_id ++ "_" ++ pair.polymarket_id
    confidence_score := 0
    semantic_similarity := pair.text_similarity.getD 0
    arbitrage_viability := pair.price_difference
    reasoning := "LLM evaluation failed: " ++ error ++ ". Using fallback heuristics."
    risk_assessment := "High risk due to LLM evaluation failure"
    recommended_action := "INVESTIGATE"
    ml_score := ml.llm_worthiness_score
    provider_used := "fallback"
    model_version := "heuristic"
    evaluation_timestamp := now }

/-- The outcome of one external provider call: the parsed response plus the
estimated cost, or the exception's message. The JSON-parse fallback of
`_parse_llm_response` is *not* an exception — it arrives as a successful
`LLMResponse`. -/
def CallResult := Except String (LLMResponse × ℚ)

/-- `evaluate_market_pair`, threading the cache and the accumulated cost
tracker. No path returns an evaluation: the cache-hit path raises in
`_cache_to_evaluation`, and the miss path raises when constructing
`LLMEvaluation` (and again in `_create_fallback_evaluation`, inside the
`except` handler, so the raise propagates either way) — the task always
resolves to an exception, modelled as a `none` first component. The cache
write and the cost accrual (inside `_query_openai`, gated on
`cost_tracking`) happen before the failing construction, so the cache, cost
and external-call-count components are real: 0 calls on a cache hit, 1
otherwise. -/
def evaluateMarketPair (cfg : LLMConfig) (oracle : MarketPair → CallResult)
    (now : ℚ) (cache : Cache) (totalCost : ℚ) (pair : MarketPair)
    (ml : MLPrediction) : Option LLMEvaluation × Cache × ℚ × ℕ :=
  let pairHash := generatePairHash pair
  match getCachedEvaluation cfg now cache pairHash with
  | (some _, cache₁) => (none, cache₁, totalCost, 0)
  | (none, cache₁) =>
    match oracle pair with
    | Except.ok (response, cost) =>
      let totalCost' := if cfg.cost_tracking then totalCost + cost else totalCost
      let cache₂ :=
        if cfg.enable_caching then cacheEvaluation cfg now cache₁ pairHash response
        else cache₁
      (none, cache₂, totalCost', 1)
    | Except.error e => (none, cache₁, totalCost, 1)

/-- The per-pair loop of `evaluate_market_pairs_batch` (sequential view of
the gathered tasks): the gather runs with `return_exceptions=True` and the
batch keeps only results that `isinstance` `LLMEvaluation` — a task whose
evaluation component is `none` (every task, in fact) contributes nothing to
the evaluation list, while its cache, cost and call-count effects remain.
Note that the accumulated cost is never compared with `max_cost_per_batch`:
the source never reads that configuration field, so no truncation ever
happens. -/
def evaluateBatchAux (cfg : LLMConfig) (oracle : MarketPair → CallResult)
    (now : ℚ) :
    Cache → ℚ → ℕ → List (MarketPair × MLPrediction) →
      List LLMEvaluation × Cache × ℚ × ℕ
  | cache, totalCost, calls, [] => ([], cache, totalCost, calls)
  | cache, totalCost, calls, (pair, ml) :: rest =>
    let (evalOpt, cache', totalCost', c) :=
      evaluateMarketPair cfg oracle now cache totalCost pair ml
    let (evals, cacheR, costR, callsR) :=
      evaluateBatchAux cfg oracle now cache' totalCost' (calls + c) rest
    match evalOpt with
    | some evaluation => (evaluation :: evals, cacheR, costR, callsR)
    | none => (evals, cacheR, costR, callsR)

/-- `evaluate_market_pairs_batch`: evaluate every pair, then keep only the
evaluations whose confidence reaches `min_confidence_threshold`. Also
returns the final cache, the accumulated cost and the external call count. -/
def evaluateMarketPairsBatch (cfg : LLMConfig) (oracle : MarketPair → CallResult)
    (now : ℚ) (cache : Cache) (totalCost : ℚ)
    (pairs : List (MarketPair × MLPrediction)) :
    List LLMEvaluation × Cache × ℚ × ℕ :=
  let (evaluations, cache', totalCost', calls) :=
    evaluateBatchAux cfg oracle now cache totalCost 0 pairs
  (seqFilter (fun e => e.confidence_score ≥ cfg.min_confidence_threshold) evaluations,
    cache', totalCost', calls)

end LLM

namespace Arb

open Filtering LLM

/-- `RiskLevel` from `engines/arbitrage_detection.py`. -/
inductive RiskLevel | very_low | low | medium | high | very_high
deriving DecidableEq, Repr

/-- The enum's string value — the only thing the risk gate compares. -/
def RiskLevel.value : RiskLevel → String
  | .very_low => "very_low"
  | .low => "low"
  | .medium => "medium"
  | .high => "high"
  | .very_high => "very_high"

/-- The severity ordering the specification intends for risk levels
(very_low < low < medium < high < very_high). -/
def riskSeverity : RiskLevel → ℕ
  | .very_low => 0
  | .low => 1
  | .medium => 2
  | .high => 3
  | .very_high => 4

/-- `ArbitrageType` and its string values. -/
inductive ArbitrageType | simple | cross_platform | temporal | liquidity | volatility
deriving DecidableEq, Repr

/-- The enum's string value, stored on the opportunity. -/
def ArbitrageType.value : ArbitrageType → String
  | .simple => "simple_arbitrage"
  | .cross_platform => "cross_platform"
  | .temporal => "temporal_arbitrage"
  | .liquidity => "liquidity_arbitrage"
  | .volatility => "volatility_arbitrage"

/-- `ArbitrageConfig` (alert settings omitted; nothing below reads them). -/
structure ArbitrageConfig where
  min_profit_threshold : ℚ := 2/100
  min_profit_amount : ℚ := 50
  max_position_size : ℚ := 10000
  max_acceptable_risk : RiskLevel := RiskLevel.medium
  time_decay_factor : ℚ := 1/10
  liquidity_risk_threshold : ℚ := 2/10
  kalshi_trading_fee : ℚ := 1/100
  polymarket_trading_fee : ℚ := 2/100
  gas_cost_estimate : ℚ := 5
  slippage_tolerance : ℚ := 5/1000
  max_execution_time_hours : ℚ := 24
  min_liquidity_ratio : ℚ := 1/10
  correlation_threshold : ℚ := 95/100
deriving Repr

/-- The engine's default configuration. -/
def defaultArbConfig : ArbitrageConfig := {}

/-- The keyword arguments `_determine_optimal_strategy` passes to
`ArbitrageStrategy` — a `str` Enum, which rejects them with `TypeError`, so
no strategy value is ever produced. -/
structure StrategyRec where
  buy_platform : String
  sell_platform : String
  buy_price : ℚ
  sell_price : ℚ
  execution_order : String
  hedge_required : Bool
  max_execution_time_minutes : ℕ
deriving DecidableEq, Repr

/-- The field set of the local pydantic `TransactionCostAnalysis`
(arbitrage_detection.py:73) together with the `position_size` the engine
passes as extra data; the constructor never receives the required
`cost_percentage`, so no such object is ever built. -/
structure TransactionCostAnalysis where
  kalshi_fee : ℚ
  polymarket_fee : ℚ
  gas_cost : ℚ
  slippage_cost : ℚ
  total_cost : ℚ
  position_size : ℚ
  cost_percentage : ℚ
deriving DecidableEq, Repr

/-- `RiskAssessment` (string-only report fields omitted; nothing reads them). -/
structure RiskAssessment where
  overall_risk_level : RiskLevel
  risk_score : ℚ
  liquidity_risk : ℚ
  timing_risk : ℚ
  execution_risk : ℚ
  market_correlation_risk : ℚ
  platform_risk : ℚ
deriving DecidableEq, Repr

/-- `ArbitrageMetrics` (unset optional fields omitted). -/
structure ArbitrageMetrics where
  expected_profit_usd : ℚ
  expected_profit_percentage : ℚ
  roi_percentage : ℚ
  estimated_execution_time_minutes : ℤ
  confidence_score : ℚ
  success_probability : ℚ
  volume_ratio : ℚ
  price_stability_score : ℚ
  liquidity_score : ℚ
deriving DecidableEq, Repr

/-- The keyword arguments `_analyze_arbitrage_opportunity` would pass to
the `ArbitrageOpportunity` constructor; the pydantic model in
`models/arbitrage.py` (required `buy_market_id` etc., extras forbidden)
rejects this field set, so no opportunity object is ever constructed. -/
structure ArbitrageOpportunity where
  opportunity_id : String
  market1_id : String
  market2_id : String
  market1_title : String
  market2_title : String
  market1_price : ℚ
  market2_price : ℚ
  market1_volume : ℚ
  market2_volume : ℚ
  arbitrage_type : String
  strategy : StrategyRec
  position_size : ℚ
  metrics : ArbitrageMetrics
  transaction_costs : TransactionCostAnalysis
  risk_assessment : RiskAssessment
  llm_confidence : ℚ
  llm_reasoning : String
  detected_at : ℚ
  expires_at : ℚ
  status : String
  priority_score : ℚ
deriving DecidableEq, Repr

/-- `_classify_arbitrage_type`; `none` models the `ZeroDivisionError` when
both volumes are zero (division by the max volume). -/
def classifyArbitrageType (pair : MarketPair) : Option ArbitrageType :=
  let priceDiff := |pair.kalshi_price - pair.polymarket_price|
  if priceDiff ≥ 5/100 then some ArbitrageType.simple
  else if |pair.kalshi_close_time - pair.polymarket_close_time| > 86400 then
    some ArbitrageType.temporal
  else
    let maxVolume := max pair.kalshi_volume pair.polymarket_volume
    if maxVolume = 0 then none
    else
      let volumeRatio := min pair.kalshi_volume pair.polymarket_volume / maxVolume
      if volumeRatio < 3/10 then some ArbitrageType.liquidity
      else some ArbitrageType.cross_platform

/-- `_determine_optimal_strategy`: it would buy the lower-priced side, but
`ArbitrageStrategy` (models/arbitrage.py) is a `str` Enum, and calling it
with the keyword arguments of `StrategyRec` raises `TypeError` on every
call; `none` models the raise. -/
def determineOptimalStrategy (pair : MarketPair) : Option StrategyRec := none

/-- `_calculate_optimal_position_size`: minimum of the liquidity cap, the
configured maximum, and the Kelly cap, rounded half-up to cents. `none`
models the `ZeroDivisionError` in the Kelly fraction when the two prices are
equal. -/
def calculateOptimalPositionSize (cfg : ArbitrageConfig) (pair : MarketPair) :
    Option ℚ :=
  let minVolume := min pair.kalshi_volume pair.polymarket_volume
  let liquidityLimit := minVolume * cfg.liquidity_risk_threshold
  let maxSize := cfg.max_position_size
  let priceDiff := |pair.kalshi_price - pair.polymarket_price|
  if priceDiff = 0 then none
  else
    let winRate : ℚ := 8/10
    let kellyFraction := (winRate * priceDiff - (1 - winRate)) / priceDiff
    let kellyPosition := maxSize * max 0 (min (1/4) kellyFraction)
    some (quantHalfUp2 (min liquidityLimit (min maxSize kellyPosition)))

/-- `_calculate_transaction_costs`: the fee and slippage arithmetic is pure
(a zero volume raises `ZeroDivisionError` in a slippage rate), but the
return constructs the local pydantic `TransactionCostAnalysis`
(arbitrage_detection.py:73), whose required `cost_percentage` field is never
passed — `ValidationError` on every call that gets that far; the function
therefore raises on every call, modelled as `none`. -/
def calculateTransactionCosts (cfg : ArbitrageConfig) (pair : MarketPair)
    (positionSize : ℚ) : Option TransactionCostAnalysis := none

/-- `_calculate_liquidity_risk`: tiered by the smaller volume. -/
def calculateLiquidityRisk (pair : MarketPair) : ℚ :=
  let minVolume := min pair.kalshi_volume pair.polymarket_volume
  if minVolume > 10000 then 1/10
  else if minVolume > 5000 then 2/10
  else if minVolume > 1000 then 4/10
  else if minVolume > 500 then 6/10
  else 8/10

/-- `_calculate_timing_risk`: tiered by the close-time gap in hours. -/
def calculateTimingRisk (pair : MarketPair) : ℚ :=
  let timeDiffHours := |pair.kalshi_close_time - pair.polymarket_close_time| / 3600
  if timeDiffHours < 1 then 1/10
  else if timeDiffHours < 24 then 2/10
  else if timeDiffHours < 168 then 4/10
  else 7/10

/-- `_calculate_execution_risk`: both very tight and very wide spreads are
riskier. -/
def calculateExecutionRisk (pair : MarketPair) : ℚ :=
  let priceDiff := |pair.kalshi_price - pair.polymarket_price|
  if priceDiff < 2/100 then 3/10
  else if priceDiff > 2/10 then 4/10
  else 2/10

/-- `_assess_risks`: the weighted risk score and its banding. -/
def assessRisks (pair : MarketPair) (llm : LLMEvaluation) : RiskAssessment :=
  let liquidityRisk := calculateLiquidityRisk pair
  let timingRisk := calculateTimingRisk pair
  let executionRisk := calculateExecutionRisk pair
  let correlationRisk := 1 - llm.semantic_similarity
  let platformRisk : ℚ := 1/10
  let overallRiskScore :=
    (3/10) * liquidityRisk + (25/100) * timingRisk + (2/10) * executionRisk +
      (15/100) * correlationRisk + (1/10) * platformRisk
  let riskLevel :=
    if overallRiskScore < 15/100 then RiskLevel.very_low
    else if overallRiskScore < 3/10 then RiskLevel.low
    else if overallRiskScore < 5/10 then RiskLevel.medium
    else if overallRiskScore < 7/10 then RiskLevel.high
    else RiskLevel.very_high
  { overall_risk_level := riskLevel
    risk_score := overallRiskScore
    liquidity_risk := liquidityRisk
    timing_risk := timingRisk
    execution_risk := executionRisk
    market_correlation_risk := correlationRisk
    platform_risk := platformRisk }

/-- `_calculate_arbitrage_metrics`; `none` models the `ZeroDivisionError` in
the volume ratio when both volumes are zero. -/
def calculateArbitrageMetrics (now : ℚ) (pair : MarketPair)
    (costs : TransactionCostAnalysis) (risks : RiskAssessment) :
    Option ArbitrageMetrics :=
  let maxVolume := max pair.kalshi_volume pair.polymarket_volume
  if maxVolume = 0 then none
  else
    let grossProfit := |pair.kalshi_price - pair.polymarket_price| * costs.position_size
    let netProfit := grossProfit - costs.total_cost
    let profitPercentage := if 0 < costs.position_size then netProfit / costs.position_size else 0
    let timeToClose :=
      min (pair.kalshi_close_time - now) (pair.polymarket_close_time - now) / (24 * 3600)
    let roiAnnualized :=
      if 0 < timeToClose then profitPercentage * 365 / max 1 timeToClose else 0
    let successProbability := max (1/2) (1 - risks.risk_score)
    some
      { expected_profit_usd := netProfit
        expected_profit_percentage := profitPercentage
        roi_percentage := roiAnnualized
        estimated_execution_time_minutes := max 30 (pyTrunc (risks.execution_risk * 120))
        confidence_score := successProbability
        success_probability := successProbability
        volume_ratio := min pair.kalshi_volume pair.polymarket_volume / maxVolume
        price_stability_score := 1 - |pair.kalshi_price - pair.polymarket_price|
        liquidity_score := 1 - risks.liquidity_risk }

/-- `_calculate_priority_score`: weighted combination rounded to 3 places. -/
def calculatePriorityScore (metrics : ArbitrageMetrics) (risks : RiskAssessment) : ℚ :=
  let profitScore := min 1 (metrics.expected_profit_percentage / (1/10))
  let roiScore := min 1 (metrics.roi_percentage / 100)
  let riskScore := 1 - risks.risk_score
  pyRound 3
    (profitScore * (4/10) + roiScore * (3/10) + riskScore * (2/10) +
      metrics.confidence_score * (1/10))

/-- `_calculate_expiry_time`. -/
def calculateExpiryTime (cfg : ArbitrageConfig) (now : ℚ) (pair : MarketPair) : ℚ :=
  min (min pair.kalshi_close_time pair.polymarket_close_time)
    (now + cfg.max_execution_time_hours * 3600)

/-- `_meets_profitability_threshold`. The risk comparison is Python string
comparison of the two enum *values* — lexicographic by code point, not the
severity order. -/
def meetsProfitabilityThreshold (cfg : ArbitrageConfig)
    (opp : ArbitrageOpportunity) : Bool :=
  opp.metrics.expected_profit_usd ≥ cfg.min_profit_amount &&
  opp.metrics.expected_profit_percentage ≥ cfg.min_profit_threshold &&
  pyStrLe opp.risk_assessment.overall_risk_level.value cfg.max_acceptable_risk.value

/-- `_analyze_arbitrage_opportunity`: raises on every call. The chain runs
`_classify_arbitrage_type` (which can itself raise `ZeroDivisionError` on
two zero volumes) and then stops at `_determine_optimal_strategy`
(`TypeError`: the str-Enum `ArbitrageStrategy` called with keyword
arguments); were it to get further, `_calculate_transaction_costs` (missing
required `cost_percentage`) and the final `ArbitrageOpportunity(...)` (field
set disjoint from the `extra='forbid'` pydantic model) raise too. The
caller's per-pair handler turns the raise into a dropped pair, so the
analysis never yields an opportunity. -/
def analyzeArbitrageOpportunity (cfg : ArbitrageConfig) (now : ℚ)
    (pair : MarketPair) (llm : LLMEvaluation) : Option ArbitrageOpportunity :=
  (classifyArbitrageType pair).bind fun _ =>
  (determineOptimalStrategy pair).bind fun _ => none

/-- `_filter_and_rank_opportunities`: re-apply the profitability gate, then
sort by priority score, highest first (stable). -/
def filterAndRankOpportunities (cfg : ArbitrageConfig)
    (opportunities : List ArbitrageOpportunity) : List ArbitrageOpportunity :=
  pySortDesc (·.priority_score)
    (seqFilter (meetsProfitabilityThreshold cfg) opportunities)

/-- The main loop of `detect_arbitrage_opportunities`: skip evaluations with
confidence below the hard-coded 0.75, analyse the rest, keep those passing
the profitability gate. -/
def detectLoop (cfg : ArbitrageConfig) (now : ℚ) :
    List (MarketPair × LLMEvaluation) → List ArbitrageOpportunity
  | [] => []
  | (pair, llm) :: rest =>
    if llm.confidence_score < 75/100 then detectLoop cfg now rest
    else
      match analyzeArbitrageOpportunity cfg now pair llm with
      | some opp =>
        if meetsProfitabilityThreshold cfg opp then
          opp :: detectLoop cfg now rest
        else detectLoop cfg now rest
      | none => detectLoop cfg now rest

/-- `detect_arbitrage_opportunities`: the loop followed by
`_filter_and_rank_opportunities`. -/
def detectArbitrageOpportunities (cfg : ArbitrageConfig) (now : ℚ)
    (evaluatedPairs : List (MarketPair × LLMEvaluation)) :
    List ArbitrageOpportunity :=
  filterAndRankOpportunities cfg (detectLoop cfg now evaluatedPairs)

end Arb

namespace Pipeline

open Filtering LLM Arb Bucketing

/-- `PipelineConfig` from `pipeline/orchestrator.py` (the thresholds the
embedded stages read). -/
structure PipelineConfig where
  min_bucket_confidence : ℚ := 4/10
  min_similarity_threshold : ℚ := 3/10
  min_ml_score : ℚ := 3/10
  min_llm_confidence : ℚ := 75/100
  min_arbitrage_profit : ℚ := 2/100
deriving Repr

/-- The orchestrator's default configuration. -/
def defaultPipelineConfig : PipelineConfig := {}

/-- `_execute_ml_scoring`: score each pair, keep those at or above
`min_ml_score`. `score` stands for `MLScoringEngine.score_market_pair`
(model artifact or heuristic — no claim depends on its internals); `none`
models a per-pair exception, which the loop logs and skips. -/
def executeMlScoring (cfg : PipelineConfig)
    (score : MarketPair → Option MLPrediction) (filteredPairs : List MarketPair) :
    List (MarketPair × MLPrediction) :=
  seqFilterMap (fun pair =>
    match score pair with
    | none => none
    | some prediction =>
      if prediction.llm_worthiness_score ≥ cfg.min_ml_score then
        some (pair, prediction)
      else none) filteredPairs

/-- `_execute_filtering`: the orchestrator's loop sets `bucket_markets = []`
for every bucket pair (the source never populates it), so each
`filter_bucket_pairs` call receives an empty market list. -/
def executeFiltering (log10 : ℚ → ℚ) (now : ℚ) (bucketPairs : List BucketPair) :
    List MarketPair :=
  bucketPairs.flatMap fun bp =>
    filterBucketPairs log10 defaultFilterConfig now bp.bucket_name []

/-- The arbitrage-detection stage as the orchestrator runs it: it hands
`detect_arbitrage_opportunities` the list of `LLMEvaluation`s, but that
function unpacks each element as a `(pair, evaluation)` tuple, which raises
on the first element of a non-empty list; the stage wrapper
(`_execute_stage_with_metrics`) turns the exception into `[]`. -/
def executeArbitrageDetection (cfg : ArbitrageConfig) (now : ℚ)
    (evaluations : List LLMEvaluation) : List ArbitrageOpportunity :=
  match evaluations with
  | [] => detectArbitrageOpportunities cfg now []
  | _ :: _ => []

/-- The lists `execute_pipeline` threads between its stages (`extracted`
kept as a count because raw records are opaque here). -/
structure PipelineResult where
  extracted_count : ℕ
  normalized : List NormalizedMarket
  filtered : List MarketPair
  ml_scored : List (MarketPair × MLPrediction)
  llm_accepted : List LLMEvaluation
  opportunities : List ArbitrageOpportunity

/-- `execute_pipeline` on a fresh orchestrator: extraction and enrichment
are collaborator calls (parameters); normalisation keeps at most one
normalised market per raw record; bucketing, filtering, ML scoring, LLM
evaluation and arbitrage detection are the embedded engine stages with
their default configurations and fresh engine state. -/
def pipelineRun {α : Type} (log10 : ℚ → ℚ)
    (normalizeOne : α → Option NormalizedMarket)
    (enrich : List NormalizedMarket → List NormalizedMarket)
    (score : MarketPair → Option MLPrediction)
    (oracle : MarketPair → CallResult) (now : ℚ) (rawMarkets : List α) :
    PipelineResult :=
  let normalized := seqFilterMap normalizeOne rawMarkets
  let enriched := enrich normalized
  let bucketPairs := bucketMarkets enriched
  let filtered := executeFiltering log10 now bucketPairs
  let mlScored := executeMlScoring defaultPipelineConfig score filtered
  let (accepted, _, _, _) :=
    evaluateMarketPairsBatch defaultLLMConfig oracle now [] 0 mlScored
  let opportunities := executeArbitrageDetection defaultArbConfig now accepted
  { extracted_count := rawMarkets.length
    normalized := normalized
    filtered := filtered
    ml_scored := mlScored
    llm_accepted := accepted
    opportunities := opportunities }

end Pipeline

namespace Arb

open Filtering

/-- The liquidity cap of `_calculate_optimal_position_size`, named for the
comparison with the position-size formula: a tenth (the default
`liquidity_risk_threshold`) of the smaller market volume. -/
def liquidityCapSpec (cfg : ArbitrageConfig) (pair : MarketPair) : ℚ :=
  min pair.kalshi_volume pair.polymarket_volume * cfg.liquidity_risk_threshold

/-- The Kelly cap of `_calculate_optimal_position_size`, named for the
comparison with the position-size formula: the configured maximum scaled by
the simplified Kelly fraction (win rate 0.8), clamped to [0, 0.25]. Only
meaningful when the two prices differ. -/
def kellyCapSpec (cfg : ArbitrageConfig) (pair : MarketPair) : ℚ :=
  let priceDiff := |pair.kalshi_price - pair.polymarket_price|
  cfg.max_position_size *
    max 0 (min (1/4) (((8/10) * priceDiff - (1 - 8/10)) / priceDiff))

end Arb

namespace Normalizer

/-- Modelled from the spec: the mean of the outcome volumes (absent volumes
read as 0), as the specification's `mean(outcome_volume)`. -/
def avgVolumeSpec (outcomes : List Marketfinder.MarketOutcome) : ℚ :=
  ((outcomes.map (fun o => o.volume.getD 0)).sum) / (outcomes.length : ℚ)

/-- Modelled from the spec: the price spread across outcomes — the maximum
outcome price minus the minimum outcome price (0 with no outcomes). -/
def priceSpreadSpec (outcomes : List Marketfinder.MarketOutcome) : ℚ :=
  match outcomes.map (·.price) with
  | [] => 0
  | p :: rest => rest.foldl max p - rest.foldl min p

/-- Modelled from the spec: `mean(outcome_volume) × (1 − price_spread)`, the
liquidity formula exactly as the specification words it. -/
def liquiditySpec (outcomes : List Marketfinder.MarketOutcome) : ℚ :=
  avgVolumeSpec outcomes * (1 - priceSpreadSpec outcomes)

end Normalizer

namespace Inputs

open Filtering LLM Arb Bucketing

/-- A concrete market pair (ids abstract, numbers fixed): kalshi at 0.30 with
volume 2000, polymarket at 0.60 with volume 3000, closing 10 and 20 days out. -/
def numPair (kid pid : String) : MarketPair :=
  { kalshi_id := kid, polymarket_id := pid, kalshi_title := "t1",
    polymarket_title := "t2", kalshi_price := 3/10, polymarket_price := 6/10,
    kalshi_volume := 2000, polymarket_volume := 3000, kalshi_category := "c",
    polymarket_category := "c", kalshi_close_time := 864000,
    polymarket_close_time := 1728000, bucket_name := "b", price_difference := 3/10 }

/-- A pair with equal prices on both venues. -/
def eqPricePair : MarketPair :=
  { kalshi_id := "ke", polymarket_id := "pe", kalshi_title := "t1",
    polymarket_title := "t2", kalshi_price := 1/2, polymarket_price := 1/2,
    kalshi_volume := 2000, polymarket_volume := 3000, kalshi_category := "c",
    polymarket_category := "c", kalshi_close_time := 864000,
    polymarket_close_time := 1728000, bucket_name := "b", price_difference := 0 }

/-- A high-confidence LLM evaluation (0.80) with semantic similarity 0. -/
def evalHigh : LLMEvaluation :=
  { market1_id := "x", market2_id := "y", pair_id := "x_y",
    confidence_score := 8/10, semantic_similarity := 0, arbitrage_viability := 0,
    reasoning := "r", risk_assessment := "ra", recommended_action := "PROCEED",
    ml_score := 1/2, provider_used := "openai", model_version := "gpt-4",
    evaluation_timestamp := 0 }

/-- An ML prediction used as opaque context. -/
def mlPred : MLPrediction := { llm_worthiness_score := 1/2 }

/-- A market whose title holds bitcoin and crypto keywords at once. -/
def marketC7 : NormalizedMarket :=
  { platform := Platform.kalshi
    external_id := "btc1"
    title := "bitcoin price token nft"
    category := "Crypto"
    outcomes := [{ name := "Yes", price := 1/2, volume := some 0 }]
    volume := 0
    end_date := 1735689600 }

/-- A pair whose titles have Jaccard similarity 1/3 and spread 0.05. -/
def pairC2 : MarketPair :=
  { kalshi_id := "k2a", polymarket_id := "p2a", kalshi_title := "alpha beta",
    polymarket_title := "alpha gamma", kalshi_price := 1/2,
    polymarket_price := 11/20, kalshi_volume := 2000, polymarket_volume := 3000,
    kalshi_category := "c", polymarket_category := "c",
    kalshi_close_time := 864000, polymarket_close_time := 1728000,
    bucket_name := "b", price_difference := 1/20 }

/-- A concrete parsed LLM response. -/
def respOk : LLMResponse :=
  { confidence_score := 8/10, reasoning := "sound",
    semantic_similarity := 9/10, arbitrage_viability := 8/10,
    risk_assessment := "low", recommended_action := "PROCEED" }

/-- A provider that always answers `respOk` at an estimated cost of 1 USD. -/
def oracleC3 : MarketPair → CallResult := fun _ => Except.ok (respOk, 1)

/-- The cache entry the engine writes for `numPair "k" "p"` and `respOk` at
time 0 under the default configuration. -/
def entryC3 : EvaluationCache :=
  { pair_hash := "k_p_t1_t2", response := respOk, timestamp := 0,
    provider_used := "openai", model_version := "gpt-4" }

/-- The cache state after that write. -/
def cacheC3 : Cache := [("k_p_t1_t2", entryC3)]

/-- A provider that always answers `respOk` at an estimated cost of 6 USD. -/
def oracle6 : MarketPair → CallResult := fun _ => Except.ok (respOk, 6)

/-- Two outcomes at prices 0.99 / 0.01, 100 volume each: a 0.98 price
spread. -/
def outC9 : List MarketOutcome :=
  [{ name := "Yes", price := 99/100, volume := some 100 },
   { name := "No", price := 1/100, volume := some 100 }]

end Inputs

/-! Generic lemmas about the loop and sort combinators. -/

set_option maxRecDepth 40000

theorem seqFilterMap_nil {α β : Type} (f : α → Option β) :
    seqFilterMap f [] = [] := rfl

theorem seqFilterMap_cons {α β : Type} (f : α → Option β) (a : α) (l : List α) :
    seqFilterMap f (a :: l) =
      match f a with
      | some b => b :: seqFilterMap f l
      | none => seqFilterMap f l := rfl

theorem seqFilterMap_cons_some {α β : Type} (f : α → Option β) (a : α)
    (l : List α) (b : β) (h : f a = some b) :
    seqFilterMap f (a :: l) = b :: seqFilterMap f l := by
  rw [seqFilterMap_cons, h]

theorem seqFilterMap_cons_none {α β : Type} (f : α → Option β) (a : α)
    (l : List α) (h : f a = none) :
    seqFilterMap f (a :: l) = seqFilterMap f l := by
  rw [seqFilterMap_cons, h]

theorem length_seqFilterMap_le {α β : Type} (f : α → Option β) (l : List α) :
    (seqFilterMap f l).length ≤ l.length := by
  induction l with
  | nil => exact Nat.le_refl 0
  | cons a t ih =>
    rw [seqFilterMap_cons]
    cases h : f a with
    | some b => simpa using Nat.succ_le_succ ih
    | none => simpa using Nat.le_succ_of_le ih

theorem mem_seqFilterMap {α β : Type} (f : α → Option β) (l : List α) (b : β)
    (h : b ∈ seqFilterMap f l) : ∃ a ∈ l, f a = some b := by
  induction l with
  | nil => cases h
  | cons a t ih =>
    rw [seqFilterMap_cons] at h
    cases hfa : f a with
    | some b' =>
      rw [hfa] at h
      rcases List.mem_cons.mp h with h' | h'
      · exact ⟨a, List.mem_cons_self a t, by rw [hfa, h']⟩
      · obtain ⟨a', ha', hfa'⟩ := ih h'
        exact ⟨a', List.mem_cons_of_mem a ha', hfa'⟩
    | none =>
      rw [hfa] at h
      obtain ⟨a', ha', hfa'⟩ := ih h
      exact ⟨a', List.mem_cons_of_mem a ha', hfa'⟩

theorem seqFilter_nil {α : Type} (p : α → Bool) : seqFilter p [] = [] := rfl

theorem seqFilter_cons {α : Type} (p : α → Bool) (a : α) (l : List α) :
    seqFilter p (a :: l) =
      if p a then a :: seqFilter p l else seqFilter p l := rfl

theorem seqFilter_cons_pos {α : Type} (p : α → Bool) (a : α) (l : List α)
    (h : p a = true) : seqFilter p (a :: l) = a :: seqFilter p l := by
  rw [seqFilter_cons, if_pos h]

theorem seqFilter_cons_neg {α : Type} (p : α → Bool) (a : α) (l : List α)
    (h : ¬ p a = true) : seqFilter p (a :: l) = seqFilter p l := by
  rw [seqFilter_cons, if_neg h]

theorem length_seqFilter_le {α : Type} (p : α → Bool) (l : List α) :
    (seqFilter p l).length ≤ l.length := by
  induction l with
  | nil => exact Nat.le_refl 0
  | cons a t ih =>
    rw [seqFilter_cons]
    by_cases h : p a = true
    · rw [if_pos h]; exact Nat.succ_le_succ ih
    · rw [if_neg h]; exact Nat.le_succ_of_le ih

theorem mem_seqFilter {α : Type} (p : α → Bool) (l : List α) (x : α) :
    x ∈ seqFilter p l ↔ x ∈ l ∧ p x = true := by
  induction l with
  | nil => simp [seqFilter_nil]
  | cons a t ih =>
    rw [seqFilter_cons]
    by_cases h : p a = true
    · rw [if_pos h]
      constructor
      · intro hx
        rcases List.mem_cons.mp hx with h' | h'
        · exact ⟨h' ▸ List.mem_cons_self a t, h' ▸ h⟩
        · exact ⟨List.mem_cons_of_mem a (ih.mp h').1, (ih.mp h').2⟩
      · rintro ⟨hx, hpx⟩
        rcases List.mem_cons.mp hx with h' | h'
        · exact h' ▸ List.mem_cons_self a _
        · exact List.mem_cons_of_mem a (ih.mpr ⟨h', hpx⟩)
    · rw [if_neg h]
      constructor
      · intro hx
        exact ⟨List.mem_cons_of_mem a (ih.mp hx).1, (ih.mp hx).2⟩
      · rintro ⟨hx, hpx⟩
        rcases List.mem_cons.mp hx with h' | h'
        · exact absurd (h' ▸ hpx) h
        · exact ih.mpr ⟨h', hpx⟩

theorem pyInsertDesc_nil {α : Type} (key : α → ℚ) (x : α) :
    pyInsertDesc key x [] = [x] := rfl

theorem pyInsertDesc_cons {α : Type} (key : α → ℚ) (x h : α) (t : List α) :
    pyInsertDesc key x (h :: t) =
      if key h ≥ key x then h :: pyInsertDesc key x t
      else x :: h :: t := rfl

theorem length_pyInsertDesc {α : Type} (key : α → ℚ) (x : α) (l : List α) :
    (pyInsertDesc key x l).length = l.length + 1 := by
  induction l with
  | nil => rfl
  | cons h t ih =>
    rw [pyInsertDesc_cons]
    by_cases hc : key h ≥ key x
    · rw [if_pos hc, List.length_cons, ih, List.length_cons]
    · rw [if_neg hc, List.length_cons, List.length_cons]

theorem mem_pyInsertDesc {α : Type} (key : α → ℚ) (x y : α) (l : List α) :
    y ∈ pyInsertDesc key x l ↔ y = x ∨ y ∈ l := by
  induction l with
  | nil => simp [pyInsertDesc_nil]
  | cons h t ih =>
    rw [pyInsertDesc_cons]
    by_cases hc : key h ≥ key x
    · rw [if_pos hc]
      simp only [List.mem_cons, ih]
      tauto
    · rw [if_neg hc]
      simp only [List.mem_cons]

theorem pairwise_pyInsertDesc {α : Type} (key : α → ℚ) (x : α) (l : List α)
    (h : l.Pairwise (fun a b => key b ≤ key a)) :
    (pyInsertDesc key x l).Pairwise (fun a b => key b ≤ key a) := by
  induction l with
  | nil => simp [pyInsertDesc_nil]
  | cons hd t ih =>
    rw [List.pairwise_cons] at h
    rw [pyInsertDesc_cons]
    by_cases hc : key hd ≥ key x
    · rw [if_pos hc]
      rw [List.pairwise_cons]
      refine ⟨fun y hy => ?_, ih h.2⟩
      rcases (mem_pyInsertDesc key x y t).mp hy with h' | h'
      · exact h' ▸ hc
      · exact h.1 y h'
    · rw [if_neg hc]
      rw [List.pairwise_cons]
      refine ⟨fun y hy => ?_, List.pairwise_cons.mpr h⟩
      rcases List.mem_cons.mp hy with h' | h'
      · exact h' ▸ le_of_lt (lt_of_not_ge hc)
      · exact le_trans (h.1 y h') (le_of_lt (lt_of_not_ge hc))

theorem pySortDesc_nil {α : Type} (key : α → ℚ) : pySortDesc key [] = [] := rfl

theorem pySortDesc_singleton {α : Type} (key : α → ℚ) (x : α) :
    pySortDesc key [x] = [x] := rfl

theorem pySortDesc_foldl {α : Type} (key : α → ℚ) (l : List α) :
    pySortDesc key l = l.foldl (fun acc x => pyInsertDesc key x acc) [] := rfl

theorem length_pySortDesc {α : Type} (key : α → ℚ) (l : List α) :
    (pySortDesc key l).length = l.length := by
  suffices h : ∀ acc : List α,
      (l.foldl (fun acc x => pyInsertDesc key x acc) acc).length =
        acc.length + l.length by
    rw [pySortDesc_foldl, h []]
    exact (Nat.zero_add _)
  induction l with
  | nil => intro acc; simp
  | cons a t ih =>
    intro acc
    rw [List.foldl_cons, ih, length_pyInsertDesc, List.length_cons]
    omega

theorem mem_pySortDesc {α : Type} (key : α → ℚ) (l : List α) (y : α) :
    y ∈ pySortDesc key l ↔ y ∈ l := by
  suffices h : ∀ acc : List α,
      (y ∈ l.foldl (fun acc x => pyInsertDesc key x acc) acc ↔ y ∈ acc ∨ y ∈ l) by
    rw [pySortDesc_foldl]
    simpa using h []
  induction l with
  | nil => intro acc; simp
  | cons a t ih =>
    intro acc
    rw [List.foldl_cons, ih, mem_pyInsertDesc]
    simp only [List.mem_cons]
    tauto

theorem sorted_pySortDesc {α : Type} (key : α → ℚ) (l : List α) :
    (pySortDesc key l).Pairwise (fun a b => key b ≤ key a) := by
  suffices h : ∀ acc : List α, acc.Pairwise (fun a b => key b ≤ key a) →
      (l.foldl (fun acc x => pyInsertDesc key x acc) acc).Pairwise
        (fun a b => key b ≤ key a) by
    exact h [] List.Pairwise.nil
  induction l with
  | nil => intro acc hacc; simpa using hacc
  | cons a t ih =>
    intro acc hacc
    rw [List.foldl_cons]
    exact ih _ (pairwise_pyInsertDesc key a acc hacc)

theorem seqFilter_eq_nil_of_lt {α : Type} (key : α → ℚ) (c : ℚ) (l : List α)
    (h : ∀ y ∈ l, key y < c) : seqFilter (fun a => key a = c) l = [] := by
  induction l with
  | nil => rfl
  | cons a t ih =>
    rw [seqFilter_cons, if_neg (by simpa using ne_of_lt (h a (List.mem_cons_self a t)))]
    exact ih fun y hy => h y (List.mem_cons_of_mem a hy)

theorem filter_pyInsertDesc_of_ne {α : Type} (key : α → ℚ) (c : ℚ) (x : α)
    (l : List α) (hx : ¬ key x = c) :
    seqFilter (fun a => key a = c) (pyInsertDesc key x l) =
      seqFilter (fun a => key a = c) l := by
  induction l with
  | nil =>
    rw [pyInsertDesc_nil, seqFilter_cons, if_neg (by simpa using hx)]
  | cons h t ih =>
    rw [pyInsertDesc_cons]
    by_cases hc : key h ≥ key x
    · rw [if_pos hc, seqFilter_cons, seqFilter_cons, ih]
    · rw [if_neg hc, seqFilter_cons, if_neg (by simpa using hx)]

theorem filter_pyInsertDesc_of_eq {α : Type} (key : α → ℚ) (c : ℚ) (x : α)
    (l : List α) (hx : key x = c)
    (hl : l.Pairwise (fun a b => key b ≤ key a)) :
    seqFilter (fun a => key a = c) (pyInsertDesc key x l) =
      seqFilter (fun a => key a = c) l ++ [x] := by
  induction l with
  | nil =>
    rw [pyInsertDesc_nil, seqFilter_cons, if_pos (by simpa using hx)]
    rfl
  | cons h t ih =>
    rw [List.pairwise_cons] at hl
    rw [pyInsertDesc_cons]
    by_cases hc : key h ≥ key x
    · rw [if_pos hc, seqFilter_cons, seqFilter_cons, ih hl.2]
      by_cases hh : key h = c
      · rw [if_pos (by simpa using hh), if_pos (by simpa using hh)]
        rfl
      · rw [if_neg (by simpa using hh), if_neg (by simpa using hh)]
    · rw [if_neg hc]
      have hlt : ∀ y ∈ h :: t, key y < c := by
        intro y hy
        rcases List.mem_cons.mp hy with h' | h'
        · rw [h', ← hx]
          exact lt_of_not_ge hc
        · calc key y ≤ key h := hl.1 y h'
            _ < key x := lt_of_not_ge hc
            _ = c := hx
      rw [seqFilter_cons, if_pos (by simpa using hx),
        seqFilter_eq_nil_of_lt key c (h :: t) hlt]
      rfl

theorem filter_pySortDesc {α : Type} (key : α → ℚ) (c : ℚ) (l : List α) :
    seqFilter (fun a => key a = c) (pySortDesc key l) =
      seqFilter (fun a => key a = c) l := by
  suffices h : ∀ acc : List α, acc.Pairwise (fun a b => key b ≤ key a) →
      seqFilter (fun a => key a = c)
          (l.foldl (fun acc x => pyInsertDesc key x acc) acc) =
        seqFilter (fun a => key a = c) acc ++ seqFilter (fun a => key a = c) l by
    rw [pySortDesc_foldl]
    simpa using h [] List.Pairwise.nil
  induction l with
  | nil => intro acc hacc; simp [seqFilter_nil]
  | cons a t ih =>
    intro acc hacc
    rw [List.foldl_cons, ih _ (pairwise_pyInsertDesc key a acc hacc),
      seqFilter_cons]
    by_cases ha : key a = c
    · rw [if_pos (by simpa using ha), filter_pyInsertDesc_of_eq key c a acc ha hacc]
      simp
    · rw [if_neg (by simpa using ha), filter_pyInsertDesc_of_ne key c a acc ha]

namespace Arb

theorem detectLoop_nil (cfg : ArbitrageConfig) (now : ℚ) :
    detectLoop cfg now [] = [] := rfl

theorem detectLoop_cons (cfg : ArbitrageConfig) (now : ℚ)
    (pair : Filtering.MarketPair) (llm : LLM.LLMEvaluation)
    (rest : List (Filtering.MarketPair × LLM.LLMEvaluation)) :
    detectLoop cfg now ((pair, llm) :: rest) =
      if llm.confidence_score < 75/100 then detectLoop cfg now rest
      else
        match analyzeArbitrageOpportunity cfg now pair llm with
        | some opp =>
          if meetsProfitabilityThreshold cfg opp then
            opp :: detectLoop cfg now rest
          else detectLoop cfg now rest
        | none => detectLoop cfg now rest := rfl

theorem detectLoop_cons_skip (cfg : ArbitrageConfig) (now : ℚ)
    (pair : Filtering.MarketPair) (llm : LLM.LLMEvaluation)
    (rest : List (Filtering.MarketPair × LLM.LLMEvaluation))
    (h : llm.confidence_score < 75/100) :
    detectLoop cfg now ((pair, llm) :: rest) = detectLoop cfg now rest := by
  rw [detectLoop_cons, if_pos h]

theorem detectLoop_cons_drop (cfg : ArbitrageConfig) (now : ℚ)
    (pair : Filtering.MarketPair) (llm : LLM.LLMEvaluation)
    (rest : List (Filtering.MarketPair × LLM.LLMEvaluation))
    (h : analyzeArbitrageOpportunity cfg now pair llm = none) :
    detectLoop cfg now ((pair, llm) :: rest) = detectLoop cfg now rest := by
  rw [detectLoop_cons, h]
  by_cases hc : llm.confidence_score < 75/100
  · rw [if_pos hc]
  · rw [if_neg hc]

theorem length_detectLoop_le (cfg : ArbitrageConfig) (now : ℚ)
    (eps : List (Filtering.MarketPair × LLM.LLMEvaluation)) :
    (detectLoop cfg now eps).length ≤ eps.length := by
  induction eps with
  | nil => exact Nat.le_refl 0
  | cons pe rest ih =>
    obtain ⟨pair, llm⟩ := pe
    rw [detectLoop_cons]
    by_cases hc : llm.confidence_score < 75/100
    · rw [if_pos hc]
      exact Nat.le_succ_of_le ih
    · rw [if_neg hc]
      cases h : analyzeArbitrageOpportunity cfg now pair llm with
      | none => exact Nat.le_succ_of_le ih
      | some opp =>
        dsimp only
        by_cases hm : meetsProfitabilityThreshold cfg opp = true
        · rw [if_pos hm]
          exact Nat.succ_le_succ ih
        · rw [if_neg hm]
          exact Nat.le_succ_of_le ih

theorem analyze_always_none (cfg : ArbitrageConfig) (now : ℚ)
    (pair : Filtering.MarketPair) (llm : LLM.LLMEvaluation) :
    analyzeArbitrageOpportunity cfg now pair llm = none := by
  rw [analyzeArbitrageOpportunity]
  cases hc : classifyArbitrageType pair with
  | none => rfl
  | some t => rfl

theorem detectLoop_always_nil (cfg : ArbitrageConfig) (now : ℚ)
    (eps : List (Filtering.MarketPair × LLM.LLMEvaluation)) :
    detectLoop cfg now eps = [] := by
  induction eps with
  | nil => rfl
  | cons pe rest ih =>
    obtain ⟨pair, llm⟩ := pe
    by_cases hc : llm.confidence_score < 75/100
    · rw [detectLoop_cons_skip cfg now pair llm rest hc]
      exact ih
    · rw [detectLoop_cons_drop cfg now pair llm rest
        (analyze_always_none cfg now pair llm)]
      exact ih

theorem detect_always_nil (cfg : ArbitrageConfig) (now : ℚ)
    (eps : List (Filtering.MarketPair × LLM.LLMEvaluation)) :
    detectArbitrageOpportunities cfg now eps = [] := by
  rw [detectArbitrageOpportunities, detectLoop_always_nil,
    filterAndRankOpportunities, seqFilter_nil, pySortDesc_nil]

end Arb

namespace LLM

theorem evaluateBatchAux_nil (cfg : LLMConfig)
    (oracle : Filtering.MarketPair → CallResult) (now : ℚ) (cache : Cache)
    (totalCost : ℚ) (calls : ℕ) :
    evaluateBatchAux cfg oracle now cache totalCost calls [] =
      ([], cache, totalCost, calls) := rfl

theorem evaluateBatchAux_cons (cfg : LLMConfig)
    (oracle : Filtering.MarketPair → CallResult) (now : ℚ) (cache : Cache)
    (totalCost : ℚ) (calls : ℕ) (pair : Filtering.MarketPair)
    (ml : MLPrediction) (rest : List (Filtering.MarketPair × MLPrediction)) :
    evaluateBatchAux cfg oracle now cache totalCost calls ((pair, ml) :: rest) =
      match evaluateMarketPair cfg oracle now cache totalCost pair ml with
      | (evalOpt, cache', totalCost', c) =>
        match evaluateBatchAux cfg oracle now cache' totalCost' (calls + c) rest with
        | (evals, cacheR, costR, callsR) =>
          match evalOpt with
          | some evaluation => (evaluation :: evals, cacheR, costR, callsR)
          | none => (evals, cacheR, costR, callsR) := rfl

theorem length_evaluateBatchAux_le (cfg : LLMConfig)
    (oracle : Filtering.MarketPair → CallResult) (now : ℚ)
    (pairs : List (Filtering.MarketPair × MLPrediction)) :
    ∀ (cache : Cache) (totalCost : ℚ) (calls : ℕ),
      (evaluateBatchAux cfg oracle now cache totalCost calls pairs).1.length ≤
        pairs.length := by
  induction pairs with
  | nil => intro cache totalCost calls; exact Nat.le_refl 0
  | cons pm rest ih =>
    intro cache totalCost calls
    obtain ⟨pair, ml⟩ := pm
    rw [evaluateBatchAux_cons]
    rcases h1 : evaluateMarketPair cfg oracle now cache totalCost pair ml with
      ⟨evalOpt, cache', totalCost', c⟩
    rcases h2 : evaluateBatchAux cfg oracle now cache' totalCost' (calls + c) rest with
      ⟨evals, cacheR, costR, callsR⟩
    have h3 := ih cache' totalCost' (calls + c)
    rw [h2] at h3
    cases evalOpt with
    | some evaluation =>
      dsimp only
      simp only [List.length_cons]
      rw [h2]
      exact Nat.succ_le_succ h3
    | none =>
      dsimp only
      rw [h2]
      exact Nat.le_succ_of_le h3

theorem getCachedEvaluation_miss (cfg : LLMConfig) (now : ℚ) (cache : Cache)
    (k : String) (h : cacheLookup cache k = none) :
    getCachedEvaluation cfg now cache k = (none, cache) := by
  rw [getCachedEvaluation]
  by_cases hen : cfg.enable_caching = true
  · rw [if_neg (by simp [hen]), h]
  · rw [if_pos (by simpa using hen)]

theorem getCachedEvaluation_hit (cfg : LLMConfig) (now : ℚ) (cache : Cache)
    (k : String) (cached : EvaluationCache)
    (hen : cfg.enable_caching = true)
    (h : cacheLookup cache k = some cached)
    (httl : ¬ now - cached.timestamp > cfg.cache_duration_hours * 3600) :
    getCachedEvaluation cfg now cache k = (some cached, cache) := by
  rw [getCachedEvaluation, if_neg (by simp [hen]), h]
  dsimp only
  rw [if_neg httl]

theorem evaluateMarketPair_hit (cfg : LLMConfig)
    (oracle : Filtering.MarketPair → CallResult) (now : ℚ) (cache : Cache)
    (totalCost : ℚ) (pair : Filtering.MarketPair) (ml : MLPrediction)
    (cached : EvaluationCache) (cache₁ : Cache)
    (h : getCachedEvaluation cfg now cache (generatePairHash pair) =
      (some cached, cache₁)) :
    evaluateMarketPair cfg oracle now cache totalCost pair ml =
      (none, cache₁, totalCost, 0) := by
  simp only [evaluateMarketPair]
  rw [h]

theorem evaluateMarketPair_miss_ok (cfg : LLMConfig)
    (oracle : Filtering.MarketPair → CallResult) (now : ℚ) (cache : Cache)
    (totalCost : ℚ) (pair : Filtering.MarketPair) (ml : MLPrediction)
    (resp : LLMResponse) (cost : ℚ)
    (hmiss : getCachedEvaluation cfg now cache (generatePairHash pair) =
      (none, cache))
    (hok : oracle pair = Except.ok (resp, cost)) :
    evaluateMarketPair cfg oracle now cache totalCost pair ml =
      (none,
       (if cfg.enable_caching then
          cacheEvaluation cfg now cache (generatePairHash pair) resp
        else cache),
       (if cfg.cost_tracking then totalCost + cost else totalCost), 1) := by
  simp only [evaluateMarketPair]
  rw [hmiss]
  dsimp only
  rw [hok]

theorem cacheLookup_cacheEvaluation_self (cfg : LLMConfig) (now : ℚ)
    (cache : Cache) (k : String) (resp : LLMResponse) :
    cacheLookup (cacheEvaluation cfg now cache k resp) k =
      some { pair_hash := k, response := resp, timestamp := now,
             provider_used := cfg.provider, model_version := cfg.model_name } := by
  simp only [cacheEvaluation, cacheInsert, cacheLookup]
  rw [List.find?_cons_of_pos _ (by simp)]

end LLM

theorem pySortDesc_pair_ge {α : Type} (key : α → ℚ) (a b : α)
    (h : key b ≤ key a) : pySortDesc key [a, b] = [a, b] := by
  rw [pySortDesc_foldl, List.foldl_cons, List.foldl_cons, List.foldl_nil,
    pyInsertDesc_nil, pyInsertDesc_cons, if_pos h, pyInsertDesc_nil]

namespace Pipeline

open Filtering LLM Arb Bucketing

theorem filterBucketPairs_nil (log10 : ℚ → ℚ) (cfg : FilterConfig) (now : ℚ)
    (bucket : String) : filterBucketPairs log10 cfg now bucket [] = [] := rfl

theorem executeFiltering_eq_nil (log10 : ℚ → ℚ) (now : ℚ)
    (bps : List BucketPair) : executeFiltering log10 now bps = [] := by
  induction bps with
  | nil => rfl
  | cons bp rest ih =>
    rw [executeFiltering] at ih ⊢
    rw [List.flatMap_cons, filterBucketPairs_nil, List.nil_append]
    exact ih

theorem length_evaluateMarketPairsBatch_le (cfg : LLMConfig)
    (oracle : MarketPair → CallResult) (now : ℚ) (cache : Cache) (c : ℚ)
    (pairs : List (MarketPair × MLPrediction)) :
    (evaluateMarketPairsBatch cfg oracle now cache c pairs).1.length ≤
      pairs.length := by
  have hproj : (evaluateMarketPairsBatch cfg oracle now cache c pairs).1 =
      seqFilter (fun e => e.confidence_score ≥ cfg.min_confidence_threshold)
        (evaluateBatchAux cfg oracle now cache c 0 pairs).1 := rfl
  rw [hproj]
  calc (seqFilter _ (evaluateBatchAux cfg oracle now cache c 0 pairs).1).length
      ≤ (evaluateBatchAux cfg oracle now cache c 0 pairs).1.length :=
        length_seqFilter_le _ _
    _ ≤ pairs.length := length_evaluateBatchAux_le cfg oracle now pairs cache c 0

theorem length_executeArbitrageDetection_le (cfg : ArbitrageConfig) (now : ℚ)
    (evals : List LLMEvaluation) :
    (executeArbitrageDetection cfg now evals).length ≤ evals.length := by
  cases evals with
  | nil => exact Nat.le_refl 0
  | cons e rest => exact Nat.zero_le _

theorem pipelineRun_extracted {α : Type} (log10 : ℚ → ℚ)
    (normalizeOne : α → Option NormalizedMarket)
    (enrich : List NormalizedMarket → List NormalizedMarket)
    (score : MarketPair → Option MLPrediction)
    (oracle : MarketPair → CallResult) (now : ℚ) (raw : List α) :
    (pipelineRun log10 normalizeOne enrich score oracle now raw).extracted_count =
      raw.length := rfl

theorem pipelineRun_normalized {α : Type} (log10 : ℚ → ℚ)
    (normalizeOne : α → Option NormalizedMarket)
    (enrich : List NormalizedMarket → List NormalizedMarket)
    (score : MarketPair → Option MLPrediction)
    (oracle : MarketPair → CallResult) (now : ℚ) (raw : List α) :
    (pipelineRun log10 normalizeOne enrich score oracle now raw).normalized =
      seqFilterMap normalizeOne raw := rfl

theorem pipelineRun_filtered {α : Type} (log10 : ℚ → ℚ)
    (normalizeOne : α → Option NormalizedMarket)
    (enrich : List NormalizedMarket → List NormalizedMarket)
    (score : MarketPair → Option MLPrediction)
    (oracle : MarketPair → CallResult) (now : ℚ) (raw : List α) :
    (pipelineRun log10 normalizeOne enrich score oracle now raw).filtered =
      executeFiltering log10 now
        (bucketMarkets (enrich (seqFilterMap normalizeOne raw))) := rfl

theorem pipelineRun_ml_scored {α : Type} (log10 : ℚ → ℚ)
    (normalizeOne : α → Option NormalizedMarket)
    (enrich : List NormalizedMarket → List NormalizedMarket)
    (score : MarketPair → Option MLPrediction)
    (oracle : MarketPair → CallResult) (now : ℚ) (raw : List α) :
    (pipelineRun log10 normalizeOne enrich score oracle now raw).ml_scored =
      executeMlScoring defaultPipelineConfig score
        (executeFiltering log10 now
          (bucketMarkets (enrich (seqFilterMap normalizeOne raw)))) := rfl

theorem pipelineRun_llm_accepted {α : Type} (log10 : ℚ → ℚ)
    (normalizeOne : α → Option NormalizedMarket)
    (enrich : List NormalizedMarket → List NormalizedMarket)
    (score : MarketPair → Option MLPrediction)
    (oracle : MarketPair → CallResult) (now : ℚ) (raw : List α) :
    (pipelineRun log10 normalizeOne enrich score oracle now raw).llm_accepted =
      (evaluateMarketPairsBatch defaultLLMConfig oracle now [] 0
        (pipelineRun log10 normalizeOne enrich score oracle now raw).ml_scored).1 := rfl

theorem pipelineRun_opportunities {α : Type} (log10 : ℚ → ℚ)
    (normalizeOne : α → Option NormalizedMarket)
    (enrich : List NormalizedMarket → List NormalizedMarket)
    (score : MarketPair → Option MLPrediction)
    (oracle : MarketPair → CallResult) (now : ℚ) (raw : List α) :
    (pipelineRun log10 normalizeOne enrich score oracle now raw).opportunities =
      executeArbitrageDetection defaultArbConfig now
        (pipelineRun log10 normalizeOne enrich score oracle now raw).llm_accepted := rfl

end Pipeline

/-! Theorems for the specification's testable properties. -/

open Filtering Bucketing Normalizer LLM Arb Pipeline Inputs

/-- C1: risk gating of emitted opportunities (code bug). In the program
`detect_arbitrage_opportunities` emits nothing at all: every per-pair
analysis raises (the str-Enum `ArbitrageStrategy` called with keyword
arguments, then pydantic `ValidationError`s in the costs and opportunity
constructions) and the per-pair handler drops the pair, so the risk-gating
property holds only vacuously. The gate itself,
`_meets_profitability_threshold`, is unreachable — and compares the enum
*string* values with Python `<=`, under which `"high" <= "medium"` holds
lexicographically although high exceeds medium in the severity order
very_low < low < medium < high < very_high. -/
theorem C1_risk_gate_not_enforced :
    (∀ (cfg : ArbitrageConfig) (now : ℚ)
        (eps : List (MarketPair × LLMEvaluation)),
      detectArbitrageOpportunities cfg now eps = []) ∧
    pyStrLe (RiskLevel.high).value (RiskLevel.medium).value = true ∧
    riskSeverity RiskLevel.medium < riskSeverity RiskLevel.high ∧
    defaultArbConfig.max_acceptable_risk = RiskLevel.medium :=
  ⟨detect_always_nil, by decide, by decide, rfl⟩

/-- C5: CONFIRMED. For every pipeline run (arbitrary extraction,
normalisation, enrichment, ML scorer and LLM provider collaborators), the
candidate counts are non-increasing through the funnel: extracted ≥
normalized ≥ filtered pairs ≥ ML-scored pairs ≥ LLM-accepted evaluations ≥
emitted opportunities. -/
theorem C5_monotone_funnel {α : Type} (log10 : ℚ → ℚ)
    (normalizeOne : α → Option NormalizedMarket)
    (enrich : List NormalizedMarket → List NormalizedMarket)
    (score : MarketPair → Option MLPrediction)
    (oracle : MarketPair → CallResult) (now : ℚ) (raw : List α) :
    (pipelineRun log10 normalizeOne enrich score oracle now raw).normalized.length ≤
        (pipelineRun log10 normalizeOne enrich score oracle now raw).extracted_count ∧
    (pipelineRun log10 normalizeOne enrich score oracle now raw).filtered.length ≤
        (pipelineRun log10 normalizeOne enrich score oracle now raw).normalized.length ∧
    (pipelineRun log10 normalizeOne enrich score oracle now raw).ml_scored.length ≤
        (pipelineRun log10 normalizeOne enrich score oracle now raw).filtered.length ∧
    (pipelineRun log10 normalizeOne enrich score oracle now raw).llm_accepted.length ≤
        (pipelineRun log10 normalizeOne enrich score oracle now raw).ml_scored.length ∧
    (pipelineRun log10 normalizeOne enrich score oracle now raw).opportunities.length ≤
        (pipelineRun log10 normalizeOne enrich score oracle now raw).llm_accepted.length := by
  refine ⟨?_, ?_, ?_, ?_, ?_⟩
  · rw [pipelineRun_normalized, pipelineRun_extracted]
    exact length_seqFilterMap_le _ _
  · rw [pipelineRun_filtered, executeFiltering_eq_nil]
    exact Nat.zero_le _
  · rw [pipelineRun_ml_scored, pipelineRun_filtered]
    simp only [executeMlScoring]
    exact length_seqFilterMap_le _ _
  · rw [pipelineRun_llm_accepted]
    exact length_evaluateMarketPairsBatch_le _ _ _ _ _ _
  · rw [pipelineRun_opportunities]
    exact length_executeArbitrageDetection_le _ _ _

/-- C8: ordering of the final opportunity list (code bug). The ranking
never runs on anything: every per-pair analysis raises, so the detection
loop gathers no opportunities and the final list is `[]` for every input —
the claimed priority-descending order with an `opportunity_id` tiebreak
holds only vacuously. `_filter_and_rank_opportunities` itself, unreachable
with a non-empty list, sorts by the single key `priority_score` (stably)
with no tiebreaker. -/
theorem C8_ranking_never_runs :
    (∀ (cfg : ArbitrageConfig) (now : ℚ)
        (eps : List (MarketPair × LLMEvaluation)),
      detectLoop cfg now eps = []) ∧
    (∀ cfg : ArbitrageConfig, filterAndRankOpportunities cfg [] = []) :=
  ⟨detectLoop_always_nil, fun cfg => rfl⟩

/-- C10: CONFIRMED. `_calculate_optimal_position_size` is total exactly when
the two prices differ: with a nonzero spread it returns the minimum of the
liquidity cap, the configured maximum and the Kelly cap (in cents, rounded
half-up); with equal prices the Kelly fraction divides by zero (modelled as
`none`) and the per-pair handler of the detection loop drops the pair. -/
theorem C10_position_size_total_iff_spread (cfg : ArbitrageConfig)
    (pair : MarketPair) (now : ℚ) (llm : LLMEvaluation)
    (rest : List (MarketPair × LLMEvaluation)) :
    (pair.kalshi_price ≠ pair.polymarket_price →
      calculateOptimalPositionSize cfg pair =
        some (quantHalfUp2 (min (liquidityCapSpec cfg pair)
          (min cfg.max_position_size (kellyCapSpec cfg pair))))) ∧
    (pair.kalshi_price = pair.polymarket_price →
      calculateOptimalPositionSize cfg pair = none ∧
      detectLoop cfg now ((pair, llm) :: rest) = detectLoop cfg now rest) := by
  constructor
  · intro hne
    have habs0 : ¬ |pair.kalshi_price - pair.polymarket_price| = 0 := by
      simpa [sub_eq_zero] using hne
    simp only [calculateOptimalPositionSize, liquidityCapSpec, kellyCapSpec]
    rw [if_neg habs0]
  · intro heq
    have habs0 : |pair.kalshi_price - pair.polymarket_price| = 0 := by
      simp [sub_eq_zero, heq]
    have hpos : calculateOptimalPositionSize cfg pair = none := by
      simp only [calculateOptimalPositionSize]
      rw [if_pos habs0]
    exact ⟨hpos, detectLoop_cons_drop cfg now pair llm rest
      (analyze_always_none cfg now pair llm)⟩

/-- Witness for C10 at concrete inputs: the 0.30/0.60 pair gets the capped
position (400 USD, the Kelly cap at the smaller volume), the equal-price
pair is rejected and dropped by the loop. -/
theorem C10_position_size_total_iff_spread_witness :
    (numPair "k" "p").kalshi_price ≠ (numPair "k" "p").polymarket_price ∧
    calculateOptimalPositionSize defaultArbConfig (numPair "k" "p") =
      some (quantHalfUp2 (min (liquidityCapSpec defaultArbConfig (numPair "k" "p"))
        (min defaultArbConfig.max_position_size
          (kellyCapSpec defaultArbConfig (numPair "k" "p"))))) ∧
    eqPricePair.kalshi_price = eqPricePair.polymarket_price ∧
    calculateOptimalPositionSize defaultArbConfig eqPricePair = none ∧
    detectLoop defaultArbConfig 0 [(eqPricePair, evalHigh)] =
      detectLoop defaultArbConfig 0 [] :=
  ⟨by norm_num [numPair],
   (C10_position_size_total_iff_spread defaultArbConfig (numPair "k" "p") 0
      evalHigh []).1 (by norm_num [numPair]),
   rfl,
   ((C10_position_size_total_iff_spread defaultArbConfig eqPricePair 0
      evalHigh []).2 rfl).1,
   ((C10_position_size_total_iff_spread defaultArbConfig eqPricePair 0
      evalHigh []).2 rfl).2⟩

/-- C2: CORRECTED. Filter stage 2 keeps a pair iff the *weighted* similarity
— title Jaccard times `title_weight` (0.7), the description term being the
hard-coded 0.0 placeholder — reaches `min_text_similarity`, or the price
spread is at least the hard-coded 0.1; a raw Jaccard of at least 0.3 is not
sufficient (the effective Jaccard threshold is 3/7 ≈ 0.43). -/
theorem C2_keep_iff_weighted (cfg : FilterConfig) (pair : MarketPair) :
    textSimilarityStep cfg pair ≠ none ↔
      calculateTextSimilarity pair.kalshi_title pair.polymarket_title *
          cfg.title_weight ≥ cfg.min_text_similarity ∨
        pair.price_difference ≥ 1/10 := by
  simp only [textSimilarityStep, zero_mul, add_zero]
  by_cases h : calculateTextSimilarity pair.kalshi_title pair.polymarket_title *
      cfg.title_weight ≥ cfg.min_text_similarity ∨ pair.price_difference ≥ 1/10
  · rw [if_pos h]
    simpa using h
  · rw [if_neg h]
    simpa using h

/-- C2 counterexample: the pair with titles "alpha beta" / "alpha gamma" has
Jaccard similarity 1/3 ≥ 0.3, a price spread of 0.05 < 0.1, and is dropped
by stage 2 under the default configuration — refuting the claim that every
pair with Jaccard ≥ 0.3 survives stage 2. -/
theorem C2_jaccard_not_sufficient :
    calculateTextSimilarity pairC2.kalshi_title pairC2.polymarket_title = 1/3 ∧
    (1:ℚ)/3 ≥ 3/10 ∧ pairC2.price_difference < 1/10 ∧
    textSimilarityStep defaultFilterConfig pairC2 = none ∧
    textSimilarityFilter defaultFilterConfig [pairC2] = [] := by
  have hjac : calculateTextSimilarity "alpha beta" "alpha gamma" = 1/3 := by
    norm_num [calculateTextSimilarity,
      show (tokenSet "alpha beta" \ stopWords.toFinset).card = 2 from by decide,
      show (tokenSet "alpha gamma" \ stopWords.toFinset).card = 2 from by decide,
      show ((tokenSet "alpha beta" \ stopWords.toFinset) ∩
        (tokenSet "alpha gamma" \ stopWords.toFinset)).card = 1 from by decide,
      show ((tokenSet "alpha beta" \ stopWords.toFinset) ∪
        (tokenSet "alpha gamma" \ stopWords.toFinset)).card = 3 from by decide]
  have hstep : textSimilarityStep defaultFilterConfig pairC2 = none := by
    rw [textSimilarityStep]
    rw [show pairC2.kalshi_title = "alpha beta" from rfl,
      show pairC2.polymarket_title = "alpha gamma" from rfl, hjac]
    rw [if_neg (by norm_num [defaultFilterConfig, pairC2])]
  refine ⟨?_, by norm_num, by norm_num [pairC2], hstep, ?_⟩
  · rw [show pairC2.kalshi_title = "alpha beta" from rfl,
      show pairC2.polymarket_title = "alpha gamma" from rfl, hjac]
  · rw [textSimilarityFilter, seqFilterMap_cons_none _ _ _ hstep, seqFilterMap_nil]

/-- C6: CONFIRMED. The JSON-parse fallback response has confidence 0.5 and
action INVESTIGATE, the per-call exception fallback evaluation has
confidence 0; both are below the 0.75 acceptance threshold, and every
opportunity emitted by `detect_arbitrage_opportunities` carries an LLM
confidence of at least 0.75, so no fallback evaluation ever yields an
emitted opportunity. -/
theorem C6_fallbacks_never_emitted :
    (∀ content, (parseLLMResponse none content).confidence_score = 1/2 ∧
      (parseLLMResponse none content).recommended_action = "INVESTIGATE") ∧
    (∀ pair ml e now, (createFallbackEvaluation pair ml e now).confidence_score = 0) ∧
    ((1:ℚ)/2 < 75/100 ∧ (0:ℚ) < 75/100) ∧
    (∀ cfg now eps opp, opp ∈ detectArbitrageOpportunities cfg now eps →
      75/100 ≤ opp.llm_confidence) := by
  refine ⟨fun content => ⟨rfl, rfl⟩, fun pair ml e now => rfl,
    ⟨by norm_num, by norm_num⟩, ?_⟩
  intro cfg now eps opp h
  rw [detect_always_nil] at h
  cases h

/-- Witness for C6: a concrete parse fallback and a concrete call fallback,
with their below-threshold confidences. -/
theorem C6_fallbacks_never_emitted_witness :
    (parseLLMResponse none "bad json").confidence_score = 1/2 ∧
    (parseLLMResponse none "bad json").recommended_action = "INVESTIGATE" ∧
    (createFallbackEvaluation (numPair "k" "p") mlPred "timeout" 0).confidence_score = 0 :=
  ⟨(C6_fallbacks_never_emitted.1 "bad json").1,
   (C6_fallbacks_never_emitted.1 "bad json").2,
   C6_fallbacks_never_emitted.2.1 (numPair "k" "p") mlPred "timeout" 0⟩

/-- C9: CORRECTED. For a market with at least two outcomes, all with a
volume, the derived liquidity is the mean outcome volume times the spread
factor `max(0.1, 1 − price_spread)` — the spec's `1 − price_spread` floored
at 0.1 — quantised to cents (half-even) and capped by the market's total
volume; the cap part of the claim (never exceeding total volume) holds. -/
theorem C9_liquidity_clamped_quantized (outcomes : List MarketOutcome)
    (volume : ℚ) (h2 : 2 ≤ outcomes.length)
    (hv : ∀ o ∈ outcomes, o.volume ≠ none) :
    Normalizer.calculateLiquidity outcomes volume =
      some (min (quantHalfEven2 (Normalizer.avgVolumeSpec outcomes *
        max (1/10) (1 - Normalizer.priceSpreadSpec outcomes))) volume) ∧
    ∀ l, Normalizer.calculateLiquidity outcomes volume = some l → l ≤ volume := by
  have hany : outcomes.any (fun o => o.volume = none) = false := by
    rw [List.any_eq_false]
    intro o ho
    simp only [decide_eq_true_eq]
    exact hv o ho
  have heq : Normalizer.calculateLiquidity outcomes volume =
      some (min (quantHalfEven2 (Normalizer.avgVolumeSpec outcomes *
        max (1/10) (1 - Normalizer.priceSpreadSpec outcomes))) volume) := by
    cases outcomes with
    | nil => exact absurd h2 (by norm_num)
    | cons o t =>
      simp only [Normalizer.calculateLiquidity]
      rw [if_neg (by simp), hany, if_neg (by simp)]
      simp only [List.map_cons]
      rw [if_pos h2]
      simp only [Normalizer.avgVolumeSpec, Normalizer.priceSpreadSpec,
        List.map_cons]
  refine ⟨heq, fun l hl => ?_⟩
  rw [heq] at hl
  injection hl with h'
  rw [← h']
  exact min_le_right _ _

/-- Witness for C9: the two-outcome market with prices 0.99/0.01 and volumes
100 each satisfies the hypotheses, and its liquidity is the clamped,
quantised formula capped at 1000. -/
theorem C9_liquidity_clamped_quantized_witness :
    2 ≤ outC9.length ∧ (∀ o ∈ outC9, o.volume ≠ none) ∧
    Normalizer.calculateLiquidity outC9 1000 =
      some (min (quantHalfEven2 (Normalizer.avgVolumeSpec outC9 *
        max (1/10) (1 - Normalizer.priceSpreadSpec outC9))) 1000) :=
  ⟨by decide, by decide,
   (C9_liquidity_clamped_quantized outC9 1000 (by decide) (by decide)).1⟩

/-- C9 counterexample: with prices 0.99/0.01 (spread 0.98) and mean volume
100, the code returns 10 — the 0.1 floor on the spread factor — while the
spec formula `mean(outcome_volume) × (1 − price_spread)` gives 2. -/
theorem C9_spread_floor_counterexample :
    Normalizer.calculateLiquidity outC9 1000 = some 10 ∧
    Normalizer.liquiditySpec outC9 = 2 ∧ ((10:ℚ) ≠ 2) := by
  refine ⟨?_, ?_, by norm_num⟩
  · norm_num [Normalizer.calculateLiquidity, outC9, quantHalfEven2, pyRound,
      Int.fract]
    rw [if_neg (by simp), if_neg (by simp)]
  · norm_num [Normalizer.liquiditySpec, Normalizer.avgVolumeSpec,
      Normalizer.priceSpreadSpec, outC9]

/-- C7: REFUTED as stated (code bug). On a market whose text matches both
bitcoin and general-crypto keywords, `bucket_market` returns
`crypto_general` although `crypto_bitcoin_price` has the higher
priority-adjusted score (62 + 20 = 82 versus 70 + 10 = 80) and raw score ≥
40: the scan compares the candidate's *adjusted* score against the
incumbent's stored *raw* score, so the winner is not the
highest-adjusted-score bucket. -/
theorem C7_adjusted_vs_raw_comparison :
    bucketMarket marketC7 = ("crypto_general", 7/10) ∧
    ∃ b ∈ bucketDefinitions, ∃ g ∈ bucketDefinitions,
      b.name = "crypto_bitcoin_price" ∧ g.name = "crypto_general" ∧
      calculateBucketScore marketC7 b = 62 ∧
      calculateBucketScore marketC7 g = 70 ∧
      calculateBucketScore marketC7 g + (5 - (g.priority : ℚ)) * 5 <
        calculateBucketScore marketC7 b + (5 - (b.priority : ℚ)) * 5 ∧
      (40:ℚ) ≤ calculateBucketScore marketC7 b ∧
      (bucketMarket marketC7).1 = g.name := by
  have hmain : bucketMarket marketC7 = ("crypto_general", 7/10) := by
    norm_num +decide [bucketMarket, bucketDefinitions, bucketStep,
      calculateBucketScore, date20240101, date20240901, date20241001,
      show List.countP (fun kw => pySubstr kw (combinedText marketC7))
        ["trump", "donald", "maga", "republican nominee", "gop nominee",
         "trump 2024"] = 0 from by decide,
      show List.countP (fun kw => pySubstr kw (combinedText marketC7))
        ["biden", "joe biden", "democratic nominee", "democrat nominee",
         "biden 2024"] = 0 from by decide,
      show List.countP (fun kw => pySubstr kw (combinedText marketC7))
        ["election", "presidential", "president", "2024 election", "electoral",
         "vote"] = 0 from by decide,
      show List.countP (fun kw => pySubstr kw (combinedText marketC7))
        ["congress", "senate", "house", "representative", "senator",
         "midterm"] = 0 from by decide,
      show List.countP (fun kw => pySubstr kw (combinedText marketC7))
        ["bitcoin", "btc", "bitcoin price", "$50000", "$100000"] = 2 from by decide,
      show List.countP (fun kw => pySubstr kw (combinedText marketC7))
        ["ethereum", "eth", "ether", "ethereum price"] = 0 from by decide,
      show List.countP (fun kw => pySubstr kw (combinedText marketC7))
        ["crypto", "cryptocurrency", "coin", "token", "defi", "nft"] = 3 from by decide,
      show List.countP (fun kw => pySubstr kw (combinedText marketC7))
        ["nfl", "super bowl", "football", "playoffs", "chiefs", "bills"] = 0 from by decide,
      show List.countP (fun kw => pySubstr kw (combinedText marketC7))
        ["nba", "basketball", "finals", "championship", "lakers",
         "warriors"] = 0 from by decide,
      show List.countP (fun kw => pySubstr kw (combinedText marketC7))
        ["world cup", "fifa", "soccer", "football", "uefa",
         "premier league"] = 0 from by decide,
      show List.countP (fun kw => pySubstr kw (combinedText marketC7))
        ["fed", "federal reserve", "interest rate", "rate cut", "rate hike",
         "jerome powell"] = 0 from by decide,
      show List.countP (fun kw => pySubstr kw (combinedText marketC7))
        ["inflation", "cpi", "consumer price", "deflation", "prices"] = 0 from by decide,
      show List.countP (fun kw => pySubstr kw (combinedText marketC7))
        ["recession", "gdp", "economic growth", "unemployment", "job"] = 0 from by decide,
      show List.countP (fun kw => pySubstr kw (combinedText marketC7))
        ["apple", "microsoft", "google", "amazon", "meta", "tesla",
         "nvidia"] = 0 from by decide,
      show List.countP (fun kw => pySubstr kw (combinedText marketC7))
        ["ipo", "public offering", "listing", "debut"] = 0 from by decide,
      show List.countP (fun kw => pySubstr kw (combinedText marketC7))
        ["oscar", "academy award", "emmy", "golden globe", "grammy"] = 0 from by decide,
      show List.countP (fun kw => pySubstr kw (combinedText marketC7))
        ["celebrity", "movie", "actor", "actress", "director", "film"] = 0 from by decide,
      show List.countP (fun kw => pySubstr kw (combinedText marketC7))
        ["hurricane", "storm", "landfall", "category", "wind speed"] = 0 from by decide,
      show List.countP (fun kw => pySubstr kw (combinedText marketC7))
        ["temperature", "heat", "cold", "record", "degrees"] = 0 from by decide,
      show List.countP (fun kw => pySubstr kw (combinedText marketC7))
        ["spacex", "nasa", "rocket", "mars", "moon", "satellite"] = 0 from by decide,
      show List.countP (fun kw => pySubstr kw (combinedText marketC7))
        ["ai", "artificial intelligence", "gpt", "chatgpt",
         "machine learning"] = 0 from by decide]
  have hb : calculateBucketScore marketC7
      { name := "crypto_bitcoin_price"
        keywords := ["bitcoin", "btc", "bitcoin price", "$50000", "$100000"]
        categories := ["Crypto", "Cryptocurrency"], priority := 1
        price_range := some (20000, 200000) } = 62 := by
    norm_num [calculateBucketScore,
      show List.countP (fun kw => pySubstr kw (combinedText marketC7))
        ["bitcoin", "btc", "bitcoin price", "$50000", "$100000"] = 2 from by decide,
      show (marketC7.category ∈ (["Crypto", "Cryptocurrency"] : List String))
        from by decide]
  have hg : calculateBucketScore marketC7
      { name := "crypto_general"
        keywords := ["crypto", "cryptocurrency", "coin", "token", "defi", "nft"]
        categories := ["Crypto", "Cryptocurrency"], priority := 3 } = 70 := by
    norm_num [calculateBucketScore,
      show List.countP (fun kw => pySubstr kw (combinedText marketC7))
        ["crypto", "cryptocurrency", "coin", "token", "defi", "nft"] = 3 from by decide,
      show (marketC7.category ∈ (["Crypto", "Cryptocurrency"] : List String))
        from by decide]
  refine ⟨hmain, _, ?_, _, ?_, rfl, rfl, hb, hg, ?_, ?_, ?_⟩
  · exact List.mem_cons_of_mem _ (List.mem_cons_of_mem _ (List.mem_cons_of_mem _
      (List.mem_cons_of_mem _ (List.mem_cons_self _ _))))
  · exact List.mem_cons_of_mem _ (List.mem_cons_of_mem _ (List.mem_cons_of_mem _
      (List.mem_cons_of_mem _ (List.mem_cons_of_mem _ (List.mem_cons_of_mem _
        (List.mem_cons_self _ _))))))
  · rw [hb, hg]
    norm_num
  · rw [hb]
    norm_num
  · rw [hmain]

/-- C3: warm-cache re-evaluation (code bug). On a warm-cache re-evaluation
of the same pair the second call indeed performs zero external LLM calls,
but neither call ever returns an `LLMEvaluation`: the first raises
`ValidationError` constructing the evaluation — after making the external
call, accruing its cost and writing the cache — and the second raises in
`_cache_to_evaluation`; there is no returned second evaluation to be
identical to the first. Concretely, on the 0.30/0.60 pair: the first call
yields no evaluation, makes one external call and leaves the cache holding
the response; the second call 10 seconds later yields no evaluation and
makes zero external calls. -/
theorem C3_warm_cache_no_evaluation :
    (evaluateMarketPair defaultLLMConfig oracleC3 0 [] 0 (numPair "k" "p")
        mlPred).1 = none ∧
    (evaluateMarketPair defaultLLMConfig oracleC3 0 [] 0 (numPair "k" "p")
        mlPred).2.1 = cacheC3 ∧
    (evaluateMarketPair defaultLLMConfig oracleC3 0 [] 0 (numPair "k" "p")
        mlPred).2.2.2 = 1 ∧
    (evaluateMarketPair defaultLLMConfig oracleC3 10 cacheC3 0 (numPair "k" "p")
        mlPred).1 = none ∧
    (evaluateMarketPair defaultLLMConfig oracleC3 10 cacheC3 0 (numPair "k" "p")
        mlPred).2.2.2 = 0 := by
  have hhit : getCachedEvaluation defaultLLMConfig 10 cacheC3
      (generatePairHash (numPair "k" "p")) = (some entryC3, cacheC3) :=
    getCachedEvaluation_hit _ _ _ _ _ rfl rfl
      (by norm_num [entryC3, defaultLLMConfig])
  have h2 := evaluateMarketPair_hit defaultLLMConfig oracleC3 10 cacheC3 0
    (numPair "k" "p") mlPred entryC3 cacheC3 hhit
  refine ⟨rfl, rfl, rfl, ?_, ?_⟩
  · rw [h2]
  · rw [h2]

/-- C4: REFUTED as stated (code bug). `max_cost_per_batch` (default 10 USD)
is declared in the configuration but never read by
`evaluate_market_pairs_batch`: a batch of two cache-missing pairs at an
estimated 6 USD per call accumulates a 12 USD spend — beyond the cap — and
still performs both external calls; no truncation happens. -/
theorem C4_batch_cost_uncapped :
    (evaluateMarketPairsBatch defaultLLMConfig oracle6 0 [] 0
        [(numPair "k1" "p1", mlPred), (numPair "k2" "p2", mlPred)]).2.2.1 = 12 ∧
    defaultLLMConfig.max_cost_per_batch = 10 ∧ ((10:ℚ) < 12) ∧
    (evaluateMarketPairsBatch defaultLLMConfig oracle6 0 [] 0
        [(numPair "k1" "p1", mlPred), (numPair "k2" "p2", mlPred)]).2.2.2 = 2 := by
  have h1 := evaluateMarketPair_miss_ok defaultLLMConfig oracle6 0 [] 0
    (numPair "k1" "p1") mlPred respOk 6
    (getCachedEvaluation_miss _ _ _ _ rfl) rfl
  rw [if_pos (show defaultLLMConfig.enable_caching = true from rfl),
    if_pos (show defaultLLMConfig.cost_tracking = true from rfl)] at h1
  have h2 := evaluateMarketPair_miss_ok defaultLLMConfig oracle6 0
    (cacheEvaluation defaultLLMConfig 0 []
      (generatePairHash (numPair "k1" "p1")) respOk)
    (0 + 6) (numPair "k2" "p2") mlPred respOk 6
    (getCachedEvaluation_miss _ _ _ _ rfl) rfl
  rw [if_pos (show defaultLLMConfig.enable_caching = true from rfl),
    if_pos (show defaultLLMConfig.cost_tracking = true from rfl)] at h2
  refine ⟨?_, rfl, by norm_num, ?_⟩
  · show (evaluateBatchAux defaultLLMConfig oracle6 0 [] 0 0
        [(numPair "k1" "p1", mlPred), (numPair "k2" "p2", mlPred)]).2.2.1 = 12
    rw [evaluateBatchAux_cons, h1]
    dsimp only
    rw [evaluateBatchAux_cons, h2]
    dsimp only
    rw [evaluateBatchAux_nil]
    norm_num
  · show (evaluateBatchAux defaultLLMConfig oracle6 0 [] 0 0
        [(numPair "k1" "p1", mlPred), (numPair "k2" "p2", mlPred)]).2.2.2 = 2
    rw [evaluateBatchAux_cons, h1]
    dsimp only
    rw [evaluateBatchAux_cons, h2]
    dsimp only
    rw [evaluateBatchAux_nil]

end Marketfinder
